import Mathlib

/-!
Shallow embedding of the mcp-cosplay character-personalization pipeline.

Text is modelled as Lean `String` (a list of Unicode code points); JavaScript
numbers that take part in arithmetic the claims speak about are modelled as
`Int` (intensities, timestamps) or `ℚ` (confidences, random draws), with JS
truthiness (`x || d`, `!x`) made explicit.  `Math.random()` draws are an
explicit stream of rationals in `[0,1)` threaded through each function in the
order the source consumes them.
-/

namespace Cosplay

/-- `EmotionType` from types.ts. -/
inductive EmotionType where
  | positive | negative | neutral
deriving DecidableEq, Repr

/-- `PersonalityType` from types.ts: the three built-in personas. -/
inductive PersonalityType where
  | enthusiastic | sarcastic | professional
deriving DecidableEq, Repr

/-- `EmotionAnalysis` from types.ts (confidence as an exact rational). -/
structure EmotionAnalysis where
  emotion : EmotionType
  confidence : ℚ
  keywords : List String
deriving DecidableEq, Repr

/-- `PersonalityConfig` from types.ts. -/
structure PersonalityConfig where
  type : PersonalityType
  intensity : Int
  useEmojis : Bool
  allowStrongLanguage : Bool
deriving DecidableEq, Repr

/-- `positiveKeywords` table of emotion-analyzer.ts. -/
def positiveKeywords : List String :=
  ["great", "awesome", "excellent", "amazing", "wonderful", "fantastic",
   "good", "nice", "perfect", "love", "like", "happy", "excited",
   "成功", "很好", "棒", "优秀", "完美", "喜欢", "开心"]

/-- `negativeKeywords` table of emotion-analyzer.ts. -/
def negativeKeywords : List String :=
  ["bad", "terrible", "awful", "horrible", "hate", "dislike", "angry",
   "frustrated", "disappointed", "sad", "wrong", "error",
   "糟糕", "差", "讨厌", "愤怒", "失望", "错误", "失败"]

/-- JS `text.toLowerCase()` restricted to the per-code-point lowering that is
what it performs on every character occurring in this code base. -/
def jsToLower (text : String) : String := String.mk (text.data.map Char.toLower)

/-- Boolean contiguous-substring test on code-point lists. -/
def listInfix (needle hay : List Char) : Bool :=
  match hay with
  | [] => needle.isEmpty
  | _ :: t => needle.isPrefixOf hay || listInfix needle t

/-- JS `lowerText.includes(keyword)`: contiguous-substring containment. -/
def jsIncludes (text keyword : String) : Bool := listInfix keyword.data text.data

/-- JS `Math.min` on exact rationals. -/
def jsMin (a b : ℚ) : ℚ := if a ≤ b then a else b

/-- JS `Math.max` on exact rationals. -/
def jsMax (a b : ℚ) : ℚ := if a ≤ b then b else a

/-- `EmotionAnalyzer.analyzeSentiment` of emotion-analyzer.ts.  The two
`forEach` loops append matched keywords (positives first), count the scores,
then classify and compute the confidence as the source does: the source
computes `0.5 + diff * 0.1` and `0.5 - m * 0.05`, written here in the
equal single-fraction forms `(5 + diff)/10` and `(10 - m)/20` so that the
rationals stay kernel-computable. -/
def analyzeSentiment (text : String) : EmotionAnalysis :=
  let lowerText := jsToLower text
  let posFound := positiveKeywords.filter (fun k => jsIncludes lowerText k)
  let negFound := negativeKeywords.filter (fun k => jsIncludes lowerText k)
  let foundKeywords := posFound ++ negFound
  let positiveScore : ℕ := posFound.length
  let negativeScore : ℕ := negFound.length
  if positiveScore > negativeScore then
    { emotion := .positive,
      confidence := jsMin (mkRat (5 + (positiveScore - negativeScore : ℕ)) 10) (mkRat 19 20),
      keywords := foundKeywords }
  else if negativeScore > positiveScore then
    { emotion := .negative,
      confidence := jsMin (mkRat (5 + (negativeScore - positiveScore : ℕ)) 10) (mkRat 19 20),
      keywords := foundKeywords }
  else
    { emotion := .neutral,
      confidence := jsMax (mkRat 3 10) (mkRat (10 - (max positiveScore negativeScore : ℕ) : ℤ) 20),
      keywords := foundKeywords }

/-! ### Persona data model (types.ts) -/

/-- `PersonalityTraits` from types.ts: one built-in persona's static tables. -/
structure PersonalityTraits where
  prefixes : List String
  suffixes : List String
  intensifiers : List String
  emojis : List String
deriving DecidableEq, Repr

/-- `DialectConfig` from types.ts. -/
structure DialectConfig where
  name : String
  region : String
  characteristics : List String
  commonPhrases : List String
  pronunciationNotes : List String
  slangWords : List String
  grammarPatterns : List String
  exampleSentences : List String
deriving DecidableEq, Repr

/-- `EnhancedPersonalityConfig` from types.ts. -/
structure EnhancedPersonalityConfig where
  signaturePhrases : List String
  toneWords : List String
  attitude : String
  speechPatterns : List String
  backgroundContext : String
  emojiPreferences : List String
  languageStyle : String
  dialect : Option DialectConfig := none
deriving DecidableEq, Repr

/-- `CharacterProfile` from types.ts. -/
structure CharacterProfile where
  name : String
  description : String
  personality : EnhancedPersonalityConfig
  examples : Option (List String) := none
  category : Option String := none
deriving DecidableEq, Repr

/-- The `personalities` table of personality-manager.ts. -/
def personalities : PersonalityType → PersonalityTraits
  | .enthusiastic =>
    { prefixes := ["Wow! ", "Awesome! ", "Fantastic! ", "Hell yeah! ", "Sweet! "],
      suffixes := ["! 🚀", "! 💪", "! 🎉", "! 🔥", "! ✨"],
      intensifiers := ["absolutely", "completely", "totally", "incredibly", "amazingly"],
      emojis := ["🚀", "💪", "🎉", "🔥", "✨", "⭐", "🌟"] }
  | .sarcastic =>
    { prefixes := ["Well... ", "Oh great... ", "Surprise surprise... ", "How shocking... ", "Yay... "],
      suffixes := [". 💅", ". 🙃", ". 😒", ". 🎭", ". 👀"],
      intensifiers := ["totally", "absolutely", "definitely", "clearly"],
      emojis := ["💅", "🙃", "😒", "🎭", "👀", "🤔", "😏"] }
  | .professional =>
    { prefixes := ["Indeed, ", "Certainly, ", "Absolutely, ", "Excellent, ", "Great, "],
      suffixes := [".", "! 🙂", ".", "! 👍"],
      intensifiers := ["quite", "rather", "quite", "fairly"],
      emojis := ["👍", "🙂", "💼", "📊", "🎯"] }

/-- The `enhancedConfigs` table of personality-manager.ts. -/
def enhancedConfigs : PersonalityType → EnhancedPersonalityConfig
  | .sarcastic =>
    { signaturePhrases := ["呵呵", "我告诉你", "有钱就是任性", "你们这些凡人", "我爸是王健林"],
      toneWords := ["啧", "哼", "呵", "切", "哦"],
      attitude := "superior",
      speechPatterns := ["装逼", "嘲讽", "炫耀", "轻蔑"],
      backgroundContext := "富二代，万达集团继承人，说话嚣张跋扈",
      emojiPreferences := ["🙃", "👀", "🎭", "💰"],
      languageStyle := "casual_arrogant" }
  | .enthusiastic =>
    { signaturePhrases := ["太棒了！", "厉害！", "我太喜欢了！", "简直完美！"],
      toneWords := ["哇", "哦", "天呐", "太", "真"],
      attitude := "excited",
      speechPatterns := ["赞美", "鼓励", "热情", "积极"],
      backgroundContext := "充满活力的人，对什么都充满热情",
      emojiPreferences := ["😊", "🎉", "✨", "🔥"],
      languageStyle := "energetic" }
  | .professional =>
    { signaturePhrases := ["从专业角度", "根据我的经验", "建议", "综上所述"],
      toneWords := ["嗯", "好的", "确实", "不过", "因此"],
      attitude := "formal",
      speechPatterns := ["分析", "解释", "建议", "总结"],
      backgroundContext := "专业人士，做事严谨有条理",
      emojiPreferences := ["📊", "💼", "🎯", "📈"],
      languageStyle := "formal_business" }

/-! ### Integer helpers mirroring JS number idioms -/

/-- JS `Math.min` on integers. -/
def jsMinInt (a b : Int) : Int := if a ≤ b then a else b

/-- JS `Math.max` on integers. -/
def jsMaxInt (a b : Int) : Int := if a ≤ b then b else a

/-- JS `x || d` for an optional number: `undefined` and `0` are falsy. -/
def jsOrInt (x : Option Int) (d : Int) : Int :=
  match x with
  | none => d
  | some v => if v = 0 then d else v

/-- JS `s || d` for an optional string: `undefined` and `""` are falsy. -/
def jsOrStr (x : Option String) (d : String) : String :=
  match x with
  | none => d
  | some v => if v = "" then d else v

/-- `PersonalityManager.getPersonalityConfig` of personality-manager.ts. -/
def getPersonalityConfig (type : PersonalityType) (intensity : Int := 3) : PersonalityConfig :=
  { type := type,
    intensity := jsMaxInt 0 (jsMinInt 5 intensity),
    useEmojis := decide (intensity > 1),
    allowStrongLanguage := decide (intensity ≥ 4) && decide (type = .sarcastic) }

/-- The character-profile store of personality-manager.ts
(`characterProfiles : Map<string, CharacterProfile>`), modelled as a list
with most-recent write first; `Map.set` replaces the entry with equal key. -/
def profileSet (profiles : List CharacterProfile) (c : CharacterProfile) : List CharacterProfile :=
  c :: profiles.filter (fun p => p.name ≠ c.name)

/-- `PersonalityManager.getCharacterProfile` (a `Map.get`). -/
def profileGet (profiles : List CharacterProfile) (name : String) : Option CharacterProfile :=
  profiles.find? (fun p => p.name == name)

/-- `PersonalityManager.getCharacterEnhancedConfig`. -/
def getCharacterEnhancedConfig (profiles : List CharacterProfile) (characterName : String) :
    Option EnhancedPersonalityConfig :=
  (profileGet profiles characterName).map (·.personality)

/-- The "mocking" attitude class of
`PersonalityManager.characterToPersonalityConfig`. -/
def mockingAttitudes : List String := ["superior", "critical", "authoritarian"]

/-- `PersonalityManager.characterToPersonalityConfig` of personality-manager.ts. -/
def characterToPersonalityConfig (profiles : List CharacterProfile) (characterName : String)
    (intensity : Int := 3) : Option PersonalityConfig :=
  match profileGet profiles characterName with
  | none => none
  | some character =>
    let personalityType : PersonalityType :=
      if character.personality.attitude = "excited" ∨
         character.personality.attitude = "enthusiastic" then .enthusiastic
      else if character.personality.attitude = "formal" ∨
         character.personality.attitude = "professional" then .professional
      else .sarcastic
    some { type := personalityType,
           intensity := jsMaxInt 0 (jsMinInt 5 intensity),
           useEmojis := decide (intensity > 1),
           allowStrongLanguage :=
             decide (intensity ≥ 4) && mockingAttitudes.contains character.personality.attitude }

/-! ### ConfigManager (config-manager.ts) -/

/-- The `CosplayConfig` fields of config-manager.ts that take part in
`createCharacterConfig` (the content-safety block is modelled separately). -/
structure CosplayConfig where
  defaultPersonality : PersonalityType
  defaultIntensity : Int
  maxIntensity : Int
deriving DecidableEq, Repr

/-- The `defaultConfig` of `ConfigManager.loadConfig`. -/
def defaultCosplayConfig : CosplayConfig :=
  { defaultPersonality := .enthusiastic, defaultIntensity := 3, maxIntensity := 5 }

/-- `ConfigManager.createCharacterConfig` of config-manager.ts.  Note that the
source clamps `intensity` (when defined) into `[0, maxIntensity]` but computes
`useEmojis`/`allowStrongLanguage` from the raw `intensity || defaultIntensity`,
and its `allowStrongLanguage` has no persona condition. -/
def createCharacterConfig (cfg : CosplayConfig) (character : Option String)
    (intensity : Option Int) : PersonalityConfig :=
  let validType : PersonalityType :=
    if character = some "enthusiastic" then .enthusiastic
    else if character = some "sarcastic" then .sarcastic
    else if character = some "professional" then .professional
    else cfg.defaultPersonality
  { type := validType,
    intensity := match intensity with
      | some i => jsMaxInt 0 (jsMinInt cfg.maxIntensity i)
      | none => cfg.defaultIntensity,
    useEmojis := decide (jsOrInt intensity cfg.defaultIntensity > 1),
    allowStrongLanguage := decide (jsOrInt intensity cfg.defaultIntensity ≥ 4) }

/-! ### Randomness

Every `Math.random()` call pops the head of an explicit stream of rationals in
`[0,1)` (an exhausted stream yields `0`), consumed in exactly the order of the
source. -/

/-- One `Math.random()` draw. -/
def popRand (rng : List ℚ) : ℚ × List ℚ :=
  match rng with
  | [] => (0, [])
  | r :: rest => (r, rest)

/-- `Math.floor(r * n)` for a draw `r ∈ [0,1)`, computed by counting the
thresholds `(i+1)/n ≤ r` so that the value stays kernel-computable; for
`0 ≤ r < 1` this equals `⌊r·n⌋`. -/
def randFloorMul (r : ℚ) (n : ℕ) : ℕ :=
  ((List.range n).filter (fun i => mkRat (i + 1) n ≤ r)).length

/-- JS `arr[Math.floor(r * arr.length)]` (the sites that draw all have
non-empty tables, so the default is never selected there). -/
def randPick (arr : List String) (r : ℚ) : String :=
  arr.getD (randFloorMul r arr.length) ""

/-! ### PersonaRewriter (personality-manager.ts `applyPersonality` et al.) -/

/-- `PersonalityManager.selectPrefix` (suffix `Text` added to the Lean name). -/
def selectPrefixText (traits : PersonalityTraits) (emotion : EmotionAnalysis)
    (personality : PersonalityConfig) (rng : List ℚ) : String × List ℚ :=
  if personality.type = .enthusiastic ∧ emotion.emotion = .positive then
    (randPick traits.prefixes (popRand rng).1, (popRand rng).2)
  else if personality.type = .sarcastic ∧ emotion.emotion = .negative then
    (randPick traits.prefixes (popRand rng).1, (popRand rng).2)
  else if personality.type = .professional ∧ personality.intensity ≥ 3 then
    (traits.prefixes.getD (randFloorMul (popRand rng).1 (min 3 traits.prefixes.length)) "",
     (popRand rng).2)
  else ("", rng)

/-- `PersonalityManager.selectSuffix`. -/
def selectSuffix (traits : PersonalityTraits) (personality : PersonalityConfig)
    (rng : List ℚ) : String × List ℚ :=
  if personality.intensity ≥ 3 then
    (randPick traits.suffixes (popRand rng).1, (popRand rng).2)
  else if personality.intensity ≥ 2 then
    (traits.suffixes.getD 0 "", rng)
  else ("", rng)

/-- `PersonalityManager.addIntensifiers`: split on `' '`, and when more than
three words, graft a random intensifier onto the word at position
`⌊words.length / 3⌋`. -/
def addIntensifiers (text : String) (traits : PersonalityTraits)
    (personality : PersonalityConfig) (rng : List ℚ) : String × List ℚ :=
  if personality.intensity < 2 then (text, rng)
  else
    let words := text.data.splitOn ' '
    if words.length > 3 then
      let insertPosition := words.length / 3
      let intensifier := randPick traits.intensifiers (popRand rng).1
      let words' := words.set insertPosition
        (intensifier.data ++ ' ' :: words.getD insertPosition [])
      (String.mk (List.intercalate [' '] words'), (popRand rng).2)
    else (text, rng)

/-- The loop body of `PersonalityManager.addRandomEmojis`: `count` times,
insert a random emoji at a random offset.  (Offsets index code points here;
the source indexes UTF-16 units.) -/
def addEmojiLoop (emojis : List String) (chars : List Char) (count : ℕ)
    (rng : List ℚ) : List Char × List ℚ :=
  match count with
  | 0 => (chars, rng)
  | n + 1 =>
    let emoji := randPick emojis (popRand rng).1
    let rng1 := (popRand rng).2
    let pos := randFloorMul (popRand rng1).1 (chars.length + 1)
    addEmojiLoop emojis (chars.take pos ++ emoji.data ++ chars.drop pos) n (popRand rng1).2

/-- `PersonalityManager.addRandomEmojis`. -/
def addRandomEmojis (text : String) (traits : PersonalityTraits)
    (personality : PersonalityConfig) (rng : List ℚ) : String × List ℚ :=
  if personality.intensity < 4 ∨ personality.useEmojis = false then (text, rng)
  else
    let emojiCount := (jsMinInt (personality.intensity - 3) 2).toNat
    let run := addEmojiLoop traits.emojis text.data emojiCount rng
    (String.mk run.1, run.2)

/-- The first block of `PersonalityManager.applyEnhancedPersonality`:
probability 0.3 of prepending a random signature phrase. -/
def enhSignatureStage (config : EnhancedPersonalityConfig)
    (personality : PersonalityConfig) (s : String × List ℚ) : String × List ℚ :=
  if personality.intensity ≥ 3 ∧ config.signaturePhrases ≠ [] then
    let phrase := randPick config.signaturePhrases (popRand s.2).1
    let rng1 := (popRand s.2).2
    (if (popRand rng1).1 < mkRat 3 10 then phrase ++ "，" ++ s.1 else s.1, (popRand rng1).2)
  else s

/-- The second block of `applyEnhancedPersonality`: probability 0.4 of
prepending a random tone word. -/
def enhToneStage (config : EnhancedPersonalityConfig)
    (personality : PersonalityConfig) (s : String × List ℚ) : String × List ℚ :=
  if personality.intensity ≥ 2 ∧ config.toneWords ≠ [] then
    let toneWord := randPick config.toneWords (popRand s.2).1
    let rng1 := (popRand s.2).2
    (if (popRand rng1).1 < mkRat 4 10 then toneWord ++ "，" ++ s.1 else s.1, (popRand rng1).2)
  else s

/-- The third block of `applyEnhancedPersonality`: probability 0.5 of
appending a preferred emoji. -/
def enhEmojiStage (config : EnhancedPersonalityConfig)
    (personality : PersonalityConfig) (s : String × List ℚ) : String × List ℚ :=
  if personality.useEmojis = true ∧ personality.intensity ≥ 4 ∧
      config.emojiPreferences ≠ [] then
    let preferredEmoji := randPick config.emojiPreferences (popRand s.2).1
    let rng1 := (popRand s.2).2
    (if (popRand rng1).1 < mkRat 5 10 then s.1 ++ " " ++ preferredEmoji else s.1,
     (popRand rng1).2)
  else s

/-- `PersonalityManager.applyEnhancedPersonality`: its three probability-gated
blocks in source order. -/
def applyEnhancedPersonality (text : String) (config : EnhancedPersonalityConfig)
    (personality : PersonalityConfig) (rng : List ℚ) : String × List ℚ :=
  enhEmojiStage config personality
    (enhToneStage config personality
      (enhSignatureStage config personality (text, rng)))

/-- JS `!text.trim()`: true when the text is empty or all-whitespace. -/
def jsIsBlank (text : String) : Bool := text.data.all Char.isWhitespace

/-- The prefix statement of `applyPersonality` (intensity ≥ 3). -/
def applyPrefixStage (traits : PersonalityTraits) (emotion : EmotionAnalysis)
    (personality : PersonalityConfig) (s : String × List ℚ) : String × List ℚ :=
  if personality.intensity ≥ 3 then
    let pr := selectPrefixText traits emotion personality s.2
    (if pr.1 ≠ "" then pr.1 ++ s.1 else s.1, pr.2)
  else s

/-- The intensifier statement of `applyPersonality` (intensity ≥ 2). -/
def applyIntensifierStage (traits : PersonalityTraits)
    (personality : PersonalityConfig) (s : String × List ℚ) : String × List ℚ :=
  if personality.intensity ≥ 2 then addIntensifiers s.1 traits personality s.2
  else s

/-- The suffix statement of `applyPersonality` (intensity ≥ 2). -/
def applySuffixStage (traits : PersonalityTraits)
    (personality : PersonalityConfig) (s : String × List ℚ) : String × List ℚ :=
  if personality.intensity ≥ 2 then
    let sf := selectSuffix traits personality s.2
    (if sf.1 ≠ "" then s.1 ++ sf.1 else s.1, sf.2)
  else s

/-- The random-emoji statement of `applyPersonality`
(useEmojis ∧ intensity ≥ 4). -/
def applyEmojiStage (traits : PersonalityTraits)
    (personality : PersonalityConfig) (s : String × List ℚ) : String × List ℚ :=
  if personality.useEmojis = true ∧ personality.intensity ≥ 4 then
    addRandomEmojis s.1 traits personality s.2
  else s

/-- `PersonalityManager.applyPersonality` of personality-manager.ts: the
rule-based rewriter.  Empty/whitespace text returns unchanged; otherwise the
enhanced stage, then its four if-gated statements in source order. -/
def applyPersonality (profiles : List CharacterProfile) (text : String)
    (emotion : EmotionAnalysis) (personality : PersonalityConfig)
    (characterName : Option String) (rng : List ℚ) : String × List ℚ :=
  if jsIsBlank text then (text, rng)
  else
    let traits := personalities personality.type
    let enhancedConfig :=
      match characterName with
      | some n =>
        if n = "" then enhancedConfigs personality.type
        else match getCharacterEnhancedConfig profiles n with
          | some c => c
          | none => enhancedConfigs personality.type
      | none => enhancedConfigs personality.type
    applyEmojiStage traits personality
      (applySuffixStage traits personality
        (applyIntensifierStage traits personality
          (applyPrefixStage traits emotion personality
            (applyEnhancedPersonality text enhancedConfig personality rng))))

/-! ### JSON values (the collaborator surface of `JSON.parse`/`JSON.stringify`)

External classifier/generator responses are JSON values.  `\u` escapes in
parsed strings must denote Unicode scalar values (possibly via a surrogate
pair); lone surrogates are not representable in `Char` and are treated as a
parse failure. -/

/-- A JSON value (JS numbers as exact rationals). -/
inductive Json where
  | null
  | bool (b : Bool)
  | num (q : ℚ)
  | str (s : String)
  | arr (elems : List Json)
  | obj (fields : List (String × Json))

/-- The opening-brace character, written numerically. -/
def lbrace : Char := Char.ofNat 123

/-- The closing-brace character, written numerically. -/
def rbrace : Char := Char.ofNat 125

/-- JSON insignificant whitespace. -/
def skipWs (cs : List Char) : List Char :=
  cs.dropWhile (fun c => c = ' ' ∨ c = '\t' ∨ c = '\n' ∨ c = '\r')

/-- Combine a UTF-16 surrogate pair into a scalar value. -/
def combineSurrogates (hi lo : ℕ) : ℕ := 0x10000 + (hi - 0xD800) * 0x400 + (lo - 0xDC00)

/-- Hex digit value. -/
def hexVal (c : Char) : Option ℕ :=
  if '0' ≤ c ∧ c ≤ '9' then some (c.toNat - 48)
  else if 'a' ≤ c ∧ c ≤ 'f' then some (c.toNat - 87)
  else if 'A' ≤ c ∧ c ≤ 'F' then some (c.toNat - 55)
  else none

/-- Four hex digits. -/
def hex4 (a b c d : Char) : Option ℕ := do
  let va ← hexVal a; let vb ← hexVal b; let vc ← hexVal c; let vd ← hexVal d
  pure (((va * 16 + vb) * 16 + vc) * 16 + vd)

/-- The body of a JSON string literal (after the opening quote), producing the
decoded string and the remainder after the closing quote. -/
def parseJsonStringBody (cs : List Char) (acc : List Char) : Option (String × List Char) :=
  match cs with
  | [] => none
  | '"' :: rest => some (String.mk acc.reverse, rest)
  | '\\' :: rest =>
    match rest with
    | [] => none
    | e :: rest' =>
      if e = '"' then parseJsonStringBody rest' ('"' :: acc)
      else if e = '\\' then parseJsonStringBody rest' ('\\' :: acc)
      else if e = '/' then parseJsonStringBody rest' ('/' :: acc)
      else if e = 'n' then parseJsonStringBody rest' ('\n' :: acc)
      else if e = 't' then parseJsonStringBody rest' ('\t' :: acc)
      else if e = 'r' then parseJsonStringBody rest' ('\r' :: acc)
      else if e = 'b' then parseJsonStringBody rest' (Char.ofNat 8 :: acc)
      else if e = 'f' then parseJsonStringBody rest' (Char.ofNat 12 :: acc)
      else if e = 'u' then
        match rest' with
        | a :: b :: c :: d :: rest'' =>
          match hex4 a b c d with
          | none => none
          | some v =>
            if v < 0xD800 ∨ 0xDFFF < v then
              parseJsonStringBody rest'' (Char.ofNat v :: acc)
            else if v ≤ 0xDBFF then
              match rest'' with
              | '\\' :: 'u' :: a2 :: b2 :: c2 :: d2 :: rest3 =>
                match hex4 a2 b2 c2 d2 with
                | some v2 =>
                  if 0xDC00 ≤ v2 ∧ v2 ≤ 0xDFFF then
                    parseJsonStringBody rest3 (Char.ofNat (combineSurrogates v v2) :: acc)
                  else none
                | none => none
              | _ => none
            else none
        | _ => none
      else none
  | c :: rest => if c.toNat < 32 then none else parseJsonStringBody rest (c :: acc)

/-- Digits to a natural number. -/
def digitsVal (ds : List Char) : ℕ := ds.foldl (fun a c => a * 10 + (c.toNat - 48)) 0

/-- A JSON number literal: `-? int frac? exp?` with no leading zeros. -/
def parseJsonNumber (cs : List Char) : Option (ℚ × List Char) :=
  let (neg, cs1) := match cs with
    | '-' :: t => (true, t)
    | _ => (false, cs)
  let intDigits := cs1.takeWhile Char.isDigit
  if intDigits = [] then none
  else if intDigits.length > 1 ∧ intDigits.headI = '0' then none
  else
    let cs2 := cs1.drop intDigits.length
    let (fracDigits, cs3) := match cs2 with
      | '.' :: t =>
        let fd := t.takeWhile Char.isDigit
        (fd, t.drop fd.length)
      | _ => ([], cs2)
    if cs2 ≠ cs3 ∧ fracDigits = [] then none
    else
      let (expVal, cs4) : Int × List Char := match cs3 with
        | 'e' :: t | 'E' :: t =>
          let (esign, t1) : Int × List Char := match t with
            | '+' :: u => (1, u)
            | '-' :: u => (-1, u)
            | _ => (1, t)
          let ed := t1.takeWhile Char.isDigit
          (esign * digitsVal ed, t1.drop ed.length)
        | _ => (0, cs3)
      let mantissa : Int := digitsVal intDigits * 10 ^ fracDigits.length + digitsVal fracDigits
      let mantissa := if neg then -mantissa else mantissa
      let q : ℚ :=
        if 0 ≤ expVal then mkRat (mantissa * 10 ^ expVal.toNat) (10 ^ fracDigits.length)
        else mkRat mantissa (10 ^ (fracDigits.length + (-expVal).toNat))
      some (q, cs4)

/-- Insert an object member, later duplicate keys overriding earlier ones as
`JSON.parse` does. -/
def insertField (fields : List (String × Json)) (k : String) (v : Json) :
    List (String × Json) :=
  (fields.filter (fun p => p.1 ≠ k)) ++ [(k, v)]

mutual

/-- One JSON value (recursive descent; `fuel` bounds nesting). -/
def parseJsonValue (fuel : ℕ) (cs : List Char) : Option (Json × List Char) :=
  match fuel with
  | 0 => none
  | fuel + 1 =>
    let cs := skipWs cs
    match cs with
    | [] => none
    | c :: rest =>
      if c = lbrace then parseJsonMembers fuel (skipWs rest) [] true
      else if c = '[' then parseJsonElems fuel (skipWs rest) [] true
      else if c = '"' then
        match parseJsonStringBody rest [] with
        | some (s, r) => some (.str s, r)
        | none => none
      else if c = 't' then
        match rest with
        | 'r' :: 'u' :: 'e' :: r => some (.bool true, r)
        | _ => none
      else if c = 'f' then
        match rest with
        | 'a' :: 'l' :: 's' :: 'e' :: r => some (.bool false, r)
        | _ => none
      else if c = 'n' then
        match rest with
        | 'u' :: 'l' :: 'l' :: r => some (.null, r)
        | _ => none
      else
        match parseJsonNumber cs with
        | some (q, r) => some (.num q, r)
        | none => none

/-- Object members after `{` (with leading whitespace consumed). -/
def parseJsonMembers (fuel : ℕ) (cs : List Char) (acc : List (String × Json))
    (isFirst : Bool) : Option (Json × List Char) :=
  match fuel with
  | 0 => none
  | fuel + 1 =>
    match cs with
    | c :: rest =>
      if c = rbrace ∧ isFirst then some (.obj acc, rest)
      else if c = '"' then
        match parseJsonStringBody rest [] with
        | none => none
        | some (k, r1) =>
          match skipWs r1 with
          | ':' :: r2 =>
            match parseJsonValue fuel r2 with
            | none => none
            | some (v, r3) =>
              match skipWs r3 with
              | ',' :: r4 => parseJsonMembers fuel (skipWs r4) (insertField acc k v) false
              | d :: r4 => if d = rbrace then some (.obj (insertField acc k v), r4) else none
              | [] => none
          | _ => none
      else none
    | [] => none

/-- Array elements after `[` (with leading whitespace consumed). -/
def parseJsonElems (fuel : ℕ) (cs : List Char) (acc : List Json)
    (isFirst : Bool) : Option (Json × List Char) :=
  match fuel with
  | 0 => none
  | fuel + 1 =>
    match cs with
    | ']' :: rest => if isFirst then some (.arr acc.reverse, rest) else none
    | _ =>
      match parseJsonValue fuel cs with
      | none => none
      | some (v, r1) =>
        match skipWs r1 with
        | ',' :: r2 => parseJsonElems fuel r2 (v :: acc) false
        | ']' :: r2 => some (.arr (v :: acc).reverse, r2)
        | _ => none

end

/-- `JSON.parse`, failing (`none`) exactly where the JS builtin throws. -/
def jsonParse (s : String) : Option Json :=
  match parseJsonValue (s.data.length + 1) s.data with
  | some (j, rest) => if skipWs rest = [] then some j else none
  | none => none

/-- Escape one character for a JSON string literal. -/
def jsonEscapeChar (c : Char) : List Char :=
  if c = '"' then ['\\', '"']
  else if c = '\\' then ['\\', '\\']
  else if c = '\n' then ['\\', 'n']
  else if c = '\r' then ['\\', 'r']
  else if c = '\t' then ['\\', 't']
  else if c.toNat < 32 then
    '\\' :: 'u' :: '0' :: '0' ::
      [(Nat.digitChar (c.toNat / 16)), (Nat.digitChar (c.toNat % 16))]
  else [c]

/-- Render a number the way `JSON.stringify` prints the exercised values:
integers exactly; finite decimal fractions with their exact digits; other
rationals (never produced by the modelled code paths) fall back to the
integer part. -/
def renderQ (q : ℚ) : String :=
  if q.den = 1 then toString q.num
  else
    match (List.range 40).find? (fun k => 10 ^ k % q.den = 0) with
    | some k =>
      let scaled := q.num * ((10 ^ k : ℕ) / q.den)
      let ip := scaled / (10 ^ k : ℕ)
      let fp := scaled.natAbs % 10 ^ k
      let fracDigits := (Nat.toDigits 10 fp)
      let padded := List.replicate (k - fracDigits.length) '0' ++ fracDigits
      let trimmed := (padded.reverse.dropWhile (· = '0')).reverse
      (if q.num < 0 ∧ ip = 0 then "-" else "") ++ toString ip ++ "." ++ String.mk trimmed
    | none => toString q.num

mutual

/-- `JSON.stringify` on the modelled JSON values (it never throws here: the
model has no circular structures). -/
def jsonStringify : Json → String
  | .null => "null"
  | .bool true => "true"
  | .bool false => "false"
  | .num q => renderQ q
  | .str s => String.mk ('"' :: (s.data.flatMap jsonEscapeChar) ++ ['"'])
  | .arr xs => "[" ++ String.intercalate "," (stringifyElems xs) ++ "]"
  | .obj fs =>
    String.mk [lbrace] ++ String.intercalate "," (stringifyFields fs) ++ String.mk [rbrace]

/-- Stringify array elements. -/
def stringifyElems : List Json → List String
  | [] => []
  | x :: xs => jsonStringify x :: stringifyElems xs

/-- Stringify object members. -/
def stringifyFields : List (String × Json) → List String
  | [] => []
  | (k, v) :: fs =>
    (String.mk ('"' :: (k.data.flatMap jsonEscapeChar) ++ ['"']) ++ ":" ++ jsonStringify v)
      :: stringifyFields fs

end

/-! ### JS field access and truthiness on JSON values -/

/-- JS property read `j.name` on a parsed JSON value (`undefined` is `none`). -/
def jsonField (j : Json) (name : String) : Option Json :=
  match j with
  | .obj fs => (fs.find? (fun p => p.1 == name)).map (·.2)
  | _ => none

/-- JS truthiness of a (possibly `undefined`) JSON value. -/
def jsTruthy (j : Option Json) : Bool :=
  match j with
  | none => false
  | some .null => false
  | some (.bool b) => b
  | some (.num q) => q ≠ 0
  | some (.str s) => s ≠ ""
  | some (.arr _) => true
  | some (.obj _) => true

/-- `x.f || 0` for a numeric field (non-numeric truthy values are outside the
typed surface and not modelled). -/
def jsNumOr0 (j : Option Json) : ℚ :=
  match j with
  | some (.num q) => q
  | _ => 0

/-- A string-typed optional field. -/
def jsonStrField (j : Json) (name : String) : Option String :=
  match jsonField j name with
  | some (.str s) => some s
  | _ => none

/-- An `Array.isArray(x) ? x : []` field of strings. -/
def jsonStrArrField (j : Json) (name : String) : List String :=
  match jsonField j name with
  | some (.arr xs) => xs.filterMap (fun e => match e with | .str s => some s | _ => none)
  | _ => []

/-- JS `typeof x === "object"` (true for `null`, arrays and objects). -/
def jsTypeofObject : Json → Bool
  | .null => true
  | .arr _ => true
  | .obj _ => true
  | _ => false

/-! ### ContentSafetyChecker (content-safety-checker.ts)

The external classifier call `server.request(...)` raced with the 10s timeout
is an oracle `Except Unit Json`: `.error` for a rejection (network failure or
timeout), `.ok response` for the resolved value. -/

/-- `ContentCheckResult` from types.ts. -/
structure ContentCheckResult where
  isViolation : Bool
  confidence : ℚ
  reason : Option String := none
  category : Option String := none
deriving DecidableEq, Repr

/-- `ContentSafetyConfig` from types.ts (the `customRules` list plays no role
in the checker logic). -/
structure ContentSafetyConfig where
  enabled : Bool
  confidenceThreshold : ℚ
  strictMode : Bool
deriving DecidableEq, Repr

/-- The regex scan `/置信度[:：]\s*(\d+\.?\d*)/i` (and its `confidence`
variant) of `ContentSafetyChecker.extractFromText`, already divided by 100 as
the caller does: find the first position where the lower-cased text carries
the marker, a colon, optional whitespace and at least one digit. -/
def confScan (marker : List Char) (cs : List Char) : Option ℚ :=
  match cs with
  | [] => none
  | _ :: rest =>
    if (cs.take marker.length).map Char.toLower = marker then
      match cs.drop marker.length with
      | c :: t =>
        if c = ':' ∨ c = '：' then
          let t1 := t.dropWhile Char.isWhitespace
          let d1 := t1.takeWhile Char.isDigit
          if d1 ≠ [] then
            let t2 := t1.drop d1.length
            let d2 := match t2 with
              | '.' :: u => u.takeWhile Char.isDigit
              | _ => []
            some (mkRat (digitsVal d1 * 10 ^ d2.length + digitsVal d2) (10 ^ d2.length * 100))
          else confScan marker rest
        else confScan marker rest
      | [] => confScan marker rest
    else confScan marker rest

/-- `ContentSafetyChecker.extractFromText`: the heuristic lexical rescan of a
non-JSON classifier reply. -/
def csExtractFromText (text : String) : ContentCheckResult :=
  let hasViolation :=
    jsIncludes text "违规" || jsIncludes text "violation" || jsIncludes text "是"
  let confidence :=
    match confScan "置信度".data text.data with
    | some v => v
    | none =>
      match confScan "confidence".data text.data with
      | some v => v
      | none => mkRat 1 2
  { isViolation := hasViolation && decide (confidence > mkRat 1 2),
    confidence := jsMin confidence (mkRat 1 1),
    reason := some "LLM检测结果解析",
    category := some "内容安全" }

/-- `ContentSafetyChecker.isMCPResponse`: an object with an object-typed
`content` member or a string `text` member. -/
def csIsMCPResponse (response : Json) : Bool :=
  match response with
  | .obj _ =>
    (match jsonField response "content" with
     | some c => jsTypeofObject c
     | none => false) ||
    (match jsonField response "text" with
     | some (.str _) => true
     | _ => false)
  | _ => false

/-- `ContentSafetyChecker.extractTextFromResponse`: first element of a
`content` array when it is a non-empty `\x7btype: "text", text\x7d`, else a truthy
`text` member, else the `JSON.stringify` fallback (whose `try/catch` cannot
fire on the modelled values). -/
def csExtractText (response : Json) : Option String :=
  let fromMCP : Option String :=
    if csIsMCPResponse response then
      let viaContent : Option String :=
        match jsonField response "content" with
        | some (.arr (first :: _)) =>
          (match jsonField first "type", jsonField first "text" with
           | some (.str ty), some (.str tx) =>
             if ty = "text" ∧ tx ≠ "" then some tx else none
           | _, _ => none)
        | _ => none
      match viaContent with
      | some s => some s
      | none =>
        match jsonField response "text" with
        | some (.str s) => if s ≠ "" then some s else none
        | _ => none
    else none
  match fromMCP with
  | some s => some s
  | none => some (jsonStringify response)

/-- JS `response && typeof response === "object"` on a resolved value: only
objects and arrays pass (`null` is falsy). -/
def jsObjectTruthy : Json → Bool
  | .obj _ => true
  | .arr _ => true
  | _ => false

/-- `ContentSafetyChecker.checkWithLLM`.  Every `throw` inside its `try` is
converted by the outer `catch` into the single distinguishable failure
`"Content safety check failed"`. -/
def checkWithLLM (server : Bool) (callOutcome : Except Unit Json) :
    Except String ContentCheckResult :=
  if server = false then .error "Content safety check failed"
  else
    match callOutcome with
    | .error _ => .error "Content safety check failed"
    | .ok response =>
      if jsObjectTruthy response then
        match csExtractText response with
        | some resultText =>
          if resultText ≠ "" then
            match jsonParse resultText with
            | some parsed =>
              .ok { isViolation := jsTruthy (jsonField parsed "isViolation"),
                    confidence := jsNumOr0 (jsonField parsed "confidence"),
                    reason := jsonStrField parsed "reason",
                    category := jsonStrField parsed "category" }
            | none => .ok (csExtractFromText resultText)
          else .error "Content safety check failed"
        | none => .error "Content safety check failed"
      else .error "Content safety check failed"

/-- `ContentSafetyChecker.checkContent`: the disabled-by-config
short-circuit, else the LLM check. -/
def checkContent (config : ContentSafetyConfig) (server : Bool)
    (callOutcome : Except Unit Json) : Except String ContentCheckResult :=
  if config.enabled = false then
    .ok { isViolation := false, confidence := 0,
          reason := some "Content safety check disabled" }
  else checkWithLLM server callOutcome

/-! ### DialectService (dialect-service.ts) -/

/-- `DialectQueryRequest` from dialect-service.ts. -/
structure DialectQueryRequest where
  characterName : String
  characterDescription : Option String := none
  characterBackground : Option String := none
  historicalPeriod : Option String := none
  region : Option String := none
deriving DecidableEq, Repr

/-- `DialectQueryResult` from dialect-service.ts. -/
structure DialectQueryResult where
  success : Bool
  dialect : Option DialectConfig := none
  error : Option String := none
deriving DecidableEq, Repr

/-- `DialectService.extractTextFromResponse`: `none` models its `throw`.  The
`content` path takes the first array element whose `type` is `"text"`; the
`text` path requires `typeof === "string"` (empty allowed). -/
def dsExtractText (response : Json) : Option String :=
  let viaContent : Option String :=
    match jsonField response "content" with
    | some (.arr xs) =>
      match xs.find? (fun e => match jsonField e "type" with
        | some (.str t) => t == "text"
        | _ => false) with
      | some e =>
        (match jsonField e "text" with
         | some (.str s) => some s
         | _ => none)
      | none => none
    | _ => none
  match viaContent with
  | some s => some s
  | none =>
    match jsonField response "text" with
    | some (.str s) => some s
    | _ => none

/-- `DialectService.parseLLMResponse`: strict JSON parse; a missing or falsy
`name` or `region` invalidates the whole response. -/
def dsParseLLMResponse (response : String) : Except String DialectConfig :=
  match jsonParse response with
  | none => .error "无法解析方言配置"
  | some parsed =>
    if jsTruthy (jsonField parsed "name") = false ∨
        jsTruthy (jsonField parsed "region") = false then
      .error "无法解析方言配置"
    else
      .ok { name := (jsonStrField parsed "name").getD "",
            region := (jsonStrField parsed "region").getD "",
            characteristics := jsonStrArrField parsed "characteristics",
            commonPhrases := jsonStrArrField parsed "commonPhrases",
            pronunciationNotes := jsonStrArrField parsed "pronunciationNotes",
            slangWords := jsonStrArrField parsed "slangWords",
            grammarPatterns := jsonStrArrField parsed "grammarPatterns",
            exampleSentences := jsonStrArrField parsed "exampleSentences" }

/-- `DialectService.generateFallbackDialect`: the static name→dialect table
(the two seeded identities carry no `pronunciationNotes`, so the `|| []`
defaults leave those empty), else the standard-Mandarin default. -/
def dsGenerateFallbackDialect (request : DialectQueryRequest) : DialectQueryResult :=
  if request.characterName = "洪秀全" then
    { success := true,
      dialect := some
        { name := "广东客家话", region := "广东花县",
          characteristics := ["客家方言特点", "古汉语保留", "语气庄重"],
          commonPhrases := ["天父", "天国", "清妖", "万岁", "天王"],
          pronunciationNotes := [],
          slangWords := ["天父", "天国", "清妖"],
          grammarPatterns := ["使用古典句式", "宗教用语"],
          exampleSentences := ["天父下凡，我乃真命天子", "清妖必灭，天国必兴"] } }
  else if request.characterName = "孙中山" then
    { success := true,
      dialect := some
        { name := "广东中山话", region := "广东中山",
          characteristics := ["粤语特点", "近代汉语", "革命用语"],
          commonPhrases := ["革命", "共和", "民国", "同志", "自由"],
          pronunciationNotes := [],
          slangWords := ["革命", "共和"],
          grammarPatterns := ["现代汉语", "政治术语"],
          exampleSentences := ["革命尚未成功，同志仍需努力"] } }
  else
    { success := true,
      dialect := some
        { name := "标准官话", region := "全国",
          characteristics := ["标准汉语"],
          commonPhrases := ["是", "不是", "很好", "不错"],
          pronunciationNotes := [],
          slangWords := [],
          grammarPatterns := ["现代汉语语法"],
          exampleSentences := ["这是一个标准表达的例句"] } }

/-- `DialectService.queryDialect`: no server → rule-based fallback; a served
call that rejects, fails extraction, fails parsing, or misses required
fields → fallback; otherwise the parsed dialect. -/
def queryDialect (server : Bool) (request : DialectQueryRequest)
    (callOutcome : Except Unit Json) : DialectQueryResult :=
  if server = false then dsGenerateFallbackDialect request
  else
    match callOutcome with
    | .error _ => dsGenerateFallbackDialect request
    | .ok response =>
      match dsExtractText response with
      | none => dsGenerateFallbackDialect request
      | some text =>
        match dsParseLLMResponse text with
        | .error _ => dsGenerateFallbackDialect request
        | .ok dialectConfig => { success := true, dialect := some dialectConfig }

/-! ### DynamicCharacterGenerator (dynamic-character-generator.ts) -/

/-- `CharacterGenerationRequest`. -/
structure CharacterGenerationRequest where
  characterName : String
  description : Option String := none
  context : Option String := none
  intensity : Option Int := none
  examples : Option (List String) := none
deriving DecidableEq, Repr

/-- `CharacterGenerationResult`. -/
structure CharacterGenerationResult where
  success : Bool
  character : Option CharacterProfile := none
  error : Option String := none
deriving DecidableEq, Repr

/-- `DynamicCharacterGenerator.extractTextFromResponse` (returns `""` rather
than throwing). -/
def dcgExtractText (response : Json) : String :=
  match dsExtractText response with
  | some s => s
  | none => ""

/-- JS `String.prototype.trim` on both ends. -/
def jsTrimChars (cs : List Char) : List Char :=
  ((cs.dropWhile Char.isWhitespace).reverse.dropWhile Char.isWhitespace).reverse

/-- `DynamicCharacterGenerator.extractArrayFromLine`: the regex `\[(.*?)\]`
(first bracket to the next closing bracket), split on commas, trimmed, with
all quote characters removed. -/
def extractArrayFromLine (line : String) : List String :=
  match line.data.dropWhile (· ≠ '[') with
  | [] => []
  | _ :: rest =>
    if rest.any (· = ']') then
      let inner := rest.takeWhile (· ≠ ']')
      (inner.splitOn ',').map
        (fun w => String.mk ((jsTrimChars w).filter (fun c => ¬(c = '"' ∨ c = '\x27'))))
    else []

/-- The capture `["']?([^"',\n]+)` tried at the start of `s`. -/
def evalCapture (s : List Char) : Option (List Char) :=
  let tryAt (t : List Char) : Option (List Char) :=
    let cap := t.takeWhile (fun c => ¬(c = '"' ∨ c = '\x27' ∨ c = ',' ∨ c = '\n'))
    if cap = [] then none else some cap
  match s with
  | q :: t => if q = '"' ∨ q = '\x27' then tryAt t else tryAt s
  | [] => none

/-- Greedy-with-backtracking `\s*` before the capture: try skipping `j`
whitespace characters, largest first. -/
def evalWsBacktrack (rest : List Char) : ℕ → Option (List Char)
  | 0 => evalCapture rest
  | j + 1 =>
    match evalCapture (rest.drop (j + 1)) with
    | some c => some c
    | none => evalWsBacktrack rest j

/-- The scan of `DynamicCharacterGenerator.extractValueFromLine`
(`[:=]\s*["']?([^"',\n]+)["']?` then `.trim()`). -/
def evalScan : List Char → String
  | [] => ""
  | c :: rest =>
    if c = ':' ∨ c = '=' then
      let wsCount := (rest.takeWhile Char.isWhitespace).length
      match evalWsBacktrack rest wsCount with
      | some cap => String.mk (jsTrimChars cap)
      | none => evalScan rest
    else evalScan rest

/-- `DynamicCharacterGenerator.extractValueFromLine`. -/
def extractValueFromLine (line : String) : String := evalScan line.data

/-- `DynamicCharacterGenerator.extractFromText`: per-line keyword dispatch
over the non-JSON reply. -/
def dcgExtractFromText (text : String) : EnhancedPersonalityConfig :=
  let lines := (text.data.splitOn '\n').map String.mk
  lines.foldl
    (fun result line =>
      if jsIncludes line "signaturePhrases" || jsIncludes line "signature lines" then
        { result with signaturePhrases := extractArrayFromLine line }
      else if jsIncludes line "toneWords" || jsIncludes line "tone words" then
        { result with toneWords := extractArrayFromLine line }
      else if jsIncludes line "attitude" then
        { result with attitude := extractValueFromLine line }
      else if jsIncludes line "speechPatterns" || jsIncludes line "expression patterns" then
        { result with speechPatterns := extractArrayFromLine line }
      else if jsIncludes line "backgroundContext" || jsIncludes line "background" then
        { result with backgroundContext := extractValueFromLine line }
      else if jsIncludes line "emojiPreferences" || jsIncludes line "emoji" then
        { result with emojiPreferences := extractArrayFromLine line }
      else if jsIncludes line "languageStyle" || jsIncludes line "language style" then
        { result with languageStyle := extractValueFromLine line }
      else result)
    { signaturePhrases := [], toneWords := [], attitude := "friendly",
      speechPatterns := [], backgroundContext := "", emojiPreferences := [],
      languageStyle := "casual" }

/-- `x.f || d` for a string field of a parsed JSON object. -/
def jsonStrOr (parsed : Json) (name : String) (d : String) : String :=
  match jsonStrField parsed name with
  | some s => if s = "" then d else s
  | none => d

/-- `DynamicCharacterGenerator.parseLLMResponse`: JSON first, else the line
scan; total (its `catch` never rethrows). -/
def dcgParseLLMResponse (response : String) : EnhancedPersonalityConfig :=
  match jsonParse response with
  | some parsed =>
    { signaturePhrases := jsonStrArrField parsed "signaturePhrases",
      toneWords := jsonStrArrField parsed "toneWords",
      attitude := jsonStrOr parsed "attitude" "friendly",
      speechPatterns := jsonStrArrField parsed "speechPatterns",
      backgroundContext := jsonStrOr parsed "backgroundContext" "",
      emojiPreferences := jsonStrArrField parsed "emojiPreferences",
      languageStyle := jsonStrOr parsed "languageStyle" "casual" }
  | none => dcgExtractFromText response

/-- `DynamicCharacterGenerator.getFallbackPersonalityConfig`: the local trait
fallback used when the trait-generation branch rejects. -/
def getFallbackPersonalityConfig (request : CharacterGenerationRequest) :
    EnhancedPersonalityConfig :=
  { signaturePhrases :=
      ["I am " ++ request.characterName,
       "This is " ++ request.characterName ++ "\x27s style",
       request.characterName ++ " tells you"],
    toneWords := ["hmm", "oh", "ah", "ne", "ba"],
    attitude := "neutral",
    speechPatterns := ["direct expression", "first person"],
    backgroundContext := request.characterName ++ "\x27s character setting",
    emojiPreferences := ["😊", "🎭", "✨"],
    languageStyle := "standard" }

/-- `DynamicCharacterGenerator.inferCategory`: lower-cased substring buckets,
falling through to `"custom"`. -/
def inferCategory (characterName : String) : String :=
  let name := jsToLower characterName
  if ["dora", "crayon", "naruto", "onepiece",
      "哆啦", "蜡笔", "火影", "海贼", "奥特曼"].any (jsIncludes name ·) then "anime"
  else if ["teacher", "professor", "expert",
      "老师", "教授", "专家"].any (jsIncludes name ·) then "professional"
  else if ["star", "actor", "singer",
      "明星", "演员", "歌手"].any (jsIncludes name ·) then "entertainment"
  else if ["boss", "ceo", "leader",
      "老板", "领导", "总裁"].any (jsIncludes name ·) then "business"
  else "custom"

/-- `DynamicCharacterGenerator.generateFallbackDialect` (unlike the
dialect-service table, these entries do carry `pronunciationNotes`). -/
def dcgGenerateFallbackDialect (characterName : String) : DialectConfig :=
  if characterName = "洪秀全" then
    { name := "广东客家话", region := "广东花县",
      characteristics := ["客家方言特点", "古汉语保留", "语气庄重"],
      commonPhrases := ["天父", "天国", "清妖", "万岁", "天王"],
      pronunciationNotes := ["客家话发音特点", "保留古汉语音韵"],
      slangWords := ["天父", "天国", "清妖"],
      grammarPatterns := ["使用古典句式", "宗教用语"],
      exampleSentences := ["天父下凡，我乃真命天子", "清妖必灭，天国必兴"] }
  else if characterName = "孙中山" then
    { name := "广东中山话", region := "广东中山",
      characteristics := ["粤语特点", "近代汉语", "革命用语"],
      commonPhrases := ["革命", "共和", "民国", "同志", "自由"],
      pronunciationNotes := ["粤语中山口音", "近代国语发音"],
      slangWords := ["革命", "共和"],
      grammarPatterns := ["现代汉语", "政治术语"],
      exampleSentences := ["革命尚未成功，同志仍需努力"] }
  else
    { name := "标准官话", region := "全国",
      characteristics := ["标准汉语"],
      commonPhrases := ["是", "不是", "很好", "不错"],
      pronunciationNotes := ["标准普通话发音"],
      slangWords := [],
      grammarPatterns := ["现代汉语语法"],
      exampleSentences := ["这是一个标准表达的例句"] }

/-- `DynamicCharacterGenerator.generateFallbackCharacter`: the pure local
synthesis used when no server is configured; never fails. -/
def generateFallbackCharacter (request : CharacterGenerationRequest) :
    CharacterGenerationResult :=
  let name := jsToLower request.characterName
  let (attitude, emojiPreferences) :=
    if ["老师", "教授", "专家"].any (jsIncludes name ·) then
      ("professional", ["📚", "🎓", "💼", "📊"])
    else if ["朋友", "伙伴", "哆啦"].any (jsIncludes name ·) then
      ("friendly", ["🐱", "💫", "✨", "😊"])
    else if ["老板", "领导"].any (jsIncludes name ·) then
      ("superior", ["💰", "🎭", "👀", "🙃"])
    else ("friendly", ["😊", "👍", "✨", "💫"])
  let fallbackDialect := dcgGenerateFallbackDialect request.characterName
  { success := true,
    character := some
      { name := request.characterName,
        description := jsOrStr request.description ("Character: " ++ request.characterName),
        personality :=
          { signaturePhrases :=
              ["I am " ++ request.characterName, "Let me think", "Do you know",
               "I think", "No problem"],
            toneWords := ["hmm", "oh", "ah", "ne", "ba"],
            attitude := attitude,
            speechPatterns :=
              ["friendly communication", "positive response",
               "expressing opinions", "giving suggestions"],
            backgroundContext :=
              jsOrStr request.description ("A unique character: " ++ request.characterName),
            emojiPreferences := emojiPreferences,
            languageStyle := "Natural and smooth conversational style",
            dialect := some fallbackDialect },
        examples := request.examples,
        category := some (inferCategory request.characterName) } }

/-- The `regionKeywords` table of
`DynamicCharacterGenerator.extractRegionFromContext`. -/
def regionKeywords : List String :=
  ["广东", "广西", "北京", "上海", "四川", "重庆", "湖南", "湖北", "江苏",
   "浙江", "安徽", "福建", "江西", "山东", "山西", "河南", "河北", "辽宁",
   "吉林", "黑龙江", "陕西", "甘肃", "青海", "新疆", "西藏", "云南", "贵州",
   "海南", "台湾", "香港", "澳门", "东北", "华北", "华东", "华南", "华中",
   "西北", "西南"]

/-- `DynamicCharacterGenerator.extractRegionFromContext`. -/
def extractRegionFromContext (context : Option String) : Option String :=
  match context with
  | none => none
  | some c => regionKeywords.find? (fun kw => jsIncludes c kw)

/-- The `DialectQueryRequest` built by
`DynamicCharacterGenerator.generateDialectConfig`. -/
def dialectRequestOf (request : CharacterGenerationRequest) : DialectQueryRequest :=
  { characterName := request.characterName,
    characterDescription := request.description,
    characterBackground := request.context,
    region := extractRegionFromContext request.context }

/-- `DynamicCharacterGenerator.generateCharacter`.  With a server, the two
branches launched under `Promise.allSettled` are represented by their call
outcomes: `traitLLM` for the trait-generation request (whose rejection takes
`getFallbackPersonalityConfig`) and `dialectLLM` for the dialect request
(where `queryDialect` itself already degrades to its fallback, so that
settled branch is always fulfilled with `success = true`). -/
def generateCharacter (server : Bool) (request : CharacterGenerationRequest)
    (traitLLM dialectLLM : Except Unit Json) : CharacterGenerationResult :=
  if server = false then generateFallbackCharacter request
  else
    let personalityConfig :=
      match traitLLM with
      | .error _ => getFallbackPersonalityConfig request
      | .ok resp => dcgParseLLMResponse (dcgExtractText resp)
    let dialectResult := queryDialect true (dialectRequestOf request) dialectLLM
    let dialectConfig := if dialectResult.success then dialectResult.dialect else none
    { success := true,
      character := some
        { name := request.characterName,
          description := jsOrStr request.description ("Character: " ++ request.characterName),
          personality := { personalityConfig with dialect := dialectConfig },
          examples := request.examples,
          category := some (inferCategory request.characterName) } }

/-! ### Cosplay orchestrator (cosplay.ts)

Timestamps are integer milliseconds.  `getCacheKey` truncates a SHA-256 of
the text; the fingerprint is modelled as the text itself (injective, as the
hash is in all modelled runs).  All LLM interactions are the oracle
parameters `safetyLLM`, `traitLLM`, `dialectLLM`, `rewriteLLM`. -/

/-- `CosplayRequest` from types.ts. -/
structure CosplayRequest where
  text : String
  character : Option String := none
  intensity : Option Int := none
  context : Option String := none
deriving DecidableEq, Repr

/-- `EmotionizeResult` from types.ts. -/
structure EmotionizeResult where
  originalText : String
  emotionizedText : String
  emotion : EmotionAnalysis
  personality : PersonalityConfig
  processingTime : Int
deriving DecidableEq, Repr

/-- The mutable state of one `Cosplay` instance: the personality manager's
profile store and the two TTL caches. -/
structure CosplayState where
  profiles : List CharacterProfile := []
  safetyCache : List (String × ContentCheckResult × Int) := []
  characterCache : List (String × CharacterProfile × Int) := []
deriving DecidableEq, Repr

/-- `cacheTTL`: 5 minutes in milliseconds. -/
def cacheTTL : Int := 5 * 60 * 1000

/-- `characterCacheTTL`: 30 minutes in milliseconds. -/
def characterCacheTTL : Int := 30 * 60 * 1000

/-- `Cosplay.isCacheValid`. -/
def isCacheValid (now timestamp : Int) : Bool := now - timestamp < cacheTTL

/-- `Map.set` on an association list: replace any entry with the same key. -/
def assocSet {α : Type} (cache : List (String × α × Int)) (key : String)
    (value : α) (timestamp : Int) : List (String × α × Int) :=
  (key, value, timestamp) :: cache.filter (fun e => e.1 ≠ key)

/-- `Cosplay.cleanupCache`: sweep safety-cache entries past their TTL. -/
def cleanupCache (cache : List (String × ContentCheckResult × Int)) (now : Int) :
    List (String × ContentCheckResult × Int) :=
  cache.filter (fun e => isCacheValid now e.2.2)

/-- Whether `checkContent` reaches the external classifier request (the
disabled short-circuit and the missing-server throw both happen before it). -/
def checkContentMakesCall (config : ContentSafetyConfig) (server : Bool) : Bool :=
  config.enabled && server

/-- The cache-hit test of `checkContentWithCache`: the stored verdict when a
TTL-valid entry exists for the key. -/
def safetyCacheLookup (st : CosplayState) (now : Int) (key : String) :
    Option ContentCheckResult :=
  match st.safetyCache.find? (fun e => e.1 == key) with
  | some (_, result, timestamp) =>
    if isCacheValid now timestamp then some result else none
  | none => none

/-- The cache-hit test of `getOrGenerateCharacter`. -/
def characterCacheLookup (st : CosplayState) (now : Int) (ch : String) :
    Option CharacterProfile :=
  match st.characterCache.find? (fun e => e.1 == ch) with
  | some (_, character, timestamp) =>
    if now - timestamp < characterCacheTTL then some character else none
  | none => none

/-- `Cosplay.checkContentWithCache`: TTL-valid cache hit, else delegate to
the checker, cache a successful verdict at `now`, and sweep expired entries.
The third component records whether the external classifier was called. -/
def checkContentWithCache (st : CosplayState) (now : Int) (text : String)
    (config : ContentSafetyConfig) (server : Bool) (callOutcome : Except Unit Json) :
    Except String ContentCheckResult × CosplayState × Bool :=
  let cacheKey := text
  let hit := safetyCacheLookup st now cacheKey
  match hit with
  | some result => (.ok result, st, false)
  | none =>
    match checkContent config server callOutcome with
    | .error e => (.error e, st, checkContentMakesCall config server)
    | .ok result =>
      let st' := { st with
        safetyCache := cleanupCache (assocSet st.safetyCache cacheKey result now) now }
      (.ok result, st', checkContentMakesCall config server)

/-- `Cosplay.getOrGenerateCharacter`: existing profile, built-in sentinel,
TTL-valid character-cache hit, else dynamic generation (caching and
registering a success). -/
def getOrGenerateCharacter (st : CosplayState) (now : Int) (request : CosplayRequest)
    (server : Bool) (traitLLM dialectLLM : Except Unit Json) :
    Option CharacterProfile × CosplayState :=
  match request.character with
  | none => (none, st)
  | some ch =>
    if ch = "" then (none, st)
    else
      match profileGet st.profiles ch with
      | some existing => (some existing, st)
      | none =>
        if ch = "enthusiastic" ∨ ch = "sarcastic" ∨ ch = "professional" then (none, st)
        else
          let generate : Option CharacterProfile × CosplayState :=
            let genReq : CharacterGenerationRequest :=
              { characterName := ch, description := request.context,
                context := request.context, intensity := request.intensity }
            let result := generateCharacter server genReq traitLLM dialectLLM
            match result.success, result.character with
            | true, some character =>
              (some character,
               { st with
                 characterCache := assocSet st.characterCache ch character now,
                 profiles := profileSet st.profiles character })
            | _, _ => (none, st)
          match characterCacheLookup st now ch with
          | some character => (some character, st)
          | none => generate

/-- `Cosplay.extractTextFromResponse` selects content exactly as the
dialect-service variant does (returning `null` instead of throwing). -/
def cosExtractText (response : Json) : Option String := dsExtractText response

/-- `Cosplay.generateCharacterResponse`.  Without a server: the
character-specific decoration branch when an enhanced config exists for
`character`, else `applyPersonality` with a `createCharacterConfig`.  With a
server: the raced LLM rewrite, `resultText || text` on success, and the
`applyPersonality` fallback when the call rejects or times out. -/
def generateCharacterResponse (profiles : List CharacterProfile) (text : String)
    (character : String) (intensity : Int) (cfg : CosplayConfig) (server : Bool)
    (rewriteLLM : Except Unit Json) (rng : List ℚ) : String × List ℚ :=
  if server = false then
    match getCharacterEnhancedConfig profiles character with
    | some characterConfig =>
      let personality := characterToPersonalityConfig profiles character intensity
      let s1 :=
        if intensity ≥ 3 ∧ characterConfig.signaturePhrases ≠ [] then
          let (r1, rng1) := popRand rng
          let phrase := randPick characterConfig.signaturePhrases r1
          let (r2, rng2) := popRand rng1
          (if r2 < mkRat 3 10 then phrase ++ "，" ++ text else text, rng2)
        else (text, rng)
      let s2 :=
        if intensity ≥ 2 ∧ characterConfig.toneWords ≠ [] then
          let (r1, rng1) := popRand s1.2
          let toneWord := randPick characterConfig.toneWords r1
          let (r2, rng2) := popRand rng1
          (if r2 < mkRat 4 10 then toneWord ++ "，" ++ s1.1 else s1.1, rng2)
        else s1
      let useEm := match personality with
        | some p => p.useEmojis
        | none => false
      if useEm = true ∧ intensity ≥ 4 ∧ characterConfig.emojiPreferences ≠ [] then
        let (r1, rng1) := popRand s2.2
        let emoji := randPick characterConfig.emojiPreferences r1
        let (r2, rng2) := popRand rng1
        (if r2 < mkRat 5 10 then s2.1 ++ " " ++ emoji else s2.1, rng2)
      else s2
    | none =>
      let personality := createCharacterConfig cfg (some character) (some intensity)
      let emotion := analyzeSentiment text
      applyPersonality profiles text emotion personality none rng
  else
    match rewriteLLM with
    | .ok response =>
      (match cosExtractText response with
       | some s => if s ≠ "" then (s, rng) else (text, rng)
       | none => (text, rng))
    | .error _ =>
      let personality := createCharacterConfig cfg (some character) (some intensity)
      let emotion := analyzeSentiment text
      applyPersonality profiles text emotion personality none rng

/-- `Cosplay.cosplayText`: gate through the cached safety check (throwing the
reason-carrying error on a violation), resolve/generate the character, pick
the personality config, produce the styled text, and re-analyze sentiment on
the output.  `.error` is a thrown exception reaching the caller. -/
def cosplayText (st : CosplayState) (now : Int) (request : CosplayRequest)
    (cfg : CosplayConfig) (safetyConfig : ContentSafetyConfig) (server : Bool)
    (safetyLLM traitLLM dialectLLM rewriteLLM : Except Unit Json) (rng : List ℚ) :
    Except String (EmotionizeResult × CosplayState) :=
  let (check, st1, _) := checkContentWithCache st now request.text safetyConfig server safetyLLM
  match check with
  | .error e => .error e
  | .ok safetyCheck =>
    if safetyCheck.isViolation = true then
      .error ("Content safety check failed: " ++
        jsOrStr safetyCheck.reason "Prohibited content detected")
    else
      let (_, st2) := getOrGenerateCharacter st1 now request server traitLLM dialectLLM
      let characterProfile := profileGet st2.profiles (jsOrStr request.character "")
      let personality :=
        match characterProfile with
        | some _ =>
          (match characterToPersonalityConfig st2.profiles
              (jsOrStr request.character "sarcastic") (jsOrInt request.intensity 3) with
           | some p => p
           | none => createCharacterConfig cfg (some "sarcastic")
               (some (jsOrInt request.intensity 3)))
        | none => createCharacterConfig cfg request.character request.intensity
      let (emotionizedText, _) := generateCharacterResponse st2.profiles request.text
        (jsOrStr request.character "sarcastic") (jsOrInt request.intensity 3)
        cfg server rewriteLLM rng
      let emotion := analyzeSentiment emotionizedText
      .ok ({ originalText := request.text,
             emotionizedText := emotionizedText,
             emotion := emotion,
             personality := personality,
             processingTime := jsMaxInt 1 (now - now) }, st2)

/-- The disabled safety configuration used in local-only runs. -/
def safetyOff : ContentSafetyConfig :=
  { enabled := false, confidenceThreshold := mkRat 1 2, strictMode := true }

/-! ### Concrete witness inputs -/

/-- The number of positive keywords the analyzer matches in `text`. -/
def positiveMatchCount (text : String) : ℕ :=
  (positiveKeywords.filter (fun k => jsIncludes (jsToLower text) k)).length

/-- The number of negative keywords the analyzer matches in `text`. -/
def negativeMatchCount (text : String) : ℕ :=
  (negativeKeywords.filter (fun k => jsIncludes (jsToLower text) k)).length

/-- A minimal mocking-attitude profile used to witness C4. -/
def c4Profile : CharacterProfile :=
  { name := "tycoon", description := "a boss",
    personality :=
      { signaturePhrases := [], toneWords := [], attitude := "superior",
        speechPatterns := [], backgroundContext := "", emojiPreferences := [],
        languageStyle := "casual" } }

/-- The config `characterToPersonalityConfig` produces for `c4Profile` at
intensity 4. -/
def c4Config : PersonalityConfig :=
  { type := .sarcastic, intensity := 4, useEmojis := true, allowStrongLanguage := true }

/-- A flagged verdict sitting in the safety cache, used to witness C1. -/
def c1Verdict : ContentCheckResult :=
  { isViolation := true, confidence := mkRat 9 10, reason := some "bad text",
    category := some "leader-related" }

/-- A state whose safety cache holds `c1Verdict` for the text `"t"`. -/
def c1State : CosplayState := { safetyCache := [("t", c1Verdict, 0)] }

/-- The verdict cached when the safety check is disabled. -/
def c6SafeVerdict : ContentCheckResult :=
  { isViolation := false, confidence := 0, reason := some "Content safety check disabled" }

/-- The state after a first (disabled-path) safety check of `"t"` at time 0. -/
def c6State : CosplayState := { safetyCache := [("t", c6SafeVerdict, 0)] }

/-- An enabled safety configuration. -/
def safetyOn : ContentSafetyConfig :=
  { enabled := true, confidenceThreshold := mkRat 1 2, strictMode := true }

/-- A classifier response carrying the safe verdict as JSON. -/
def c6Response : Json := .obj [("text", .str "\x7b\"isViolation\": false\x7d")]

/-- The verdict parsed from `c6Response`. -/
def c6Verdict2 : ContentCheckResult := { isViolation := false, confidence := 0 }

/-- The state after an enabled-path first check of `"t"` at time 0. -/
def c6State2 : CosplayState := { safetyCache := [("t", c6Verdict2, 0)] }

/-- A profile cached in the character cache at time 0. -/
def c6Profile : CharacterProfile :=
  (generateFallbackCharacter { characterName := "foo" }).character.getD
    { name := "foo", description := "",
      personality :=
        { signaturePhrases := [], toneWords := [], attitude := "friendly",
          speechPatterns := [], backgroundContext := "", emojiPreferences := [],
          languageStyle := "casual" } }

/-- A state whose character cache holds `c6Profile` at time 0. -/
def c6CharState : CosplayState := { characterCache := [("foo", c6Profile, 0)] }

/-- The request used to witness C7. -/
def c7Req : CharacterGenerationRequest := { characterName := "hero" }

/-- A resolved dialect response used to witness C7. -/
def c7DialectJson : Json := .obj [("text", .str "\x7b\"name\":\"n\",\"region\":\"r\"\x7d")]

/-- The dialect parsed from `c7DialectJson`. -/
def c7Dialect : DialectConfig :=
  { name := "n", region := "r", characteristics := [], commonPhrases := [],
    pronunciationNotes := [], slangWords := [], grammarPatterns := [],
    exampleSentences := [] }

/-! ## Theorems -/

theorem jsMin_le_right (a b : ℚ) : jsMin a b ≤ b := by
  unfold jsMin; split <;> simp_all

theorem le_jsMin {a b c : ℚ} (ha : c ≤ a) (hb : c ≤ b) : c ≤ jsMin a b := by
  unfold jsMin; split <;> assumption

theorem le_jsMax_left (a b : ℚ) : a ≤ jsMax a b := by
  unfold jsMax; split <;> simp_all

theorem jsMax_le {a b c : ℚ} (ha : a ≤ c) (hb : b ≤ c) : jsMax a b ≤ c := by
  unfold jsMax; split <;> assumption

theorem mkRat_le_mkRat {a b : ℤ} {d : ℕ} (hd : 0 < d) (h : a ≤ b) :
    mkRat a d ≤ mkRat b d := by
  rw [Rat.mkRat_eq_div, Rat.mkRat_eq_div]
  gcongr

/-- C10: `EmotionAnalyzer.analyzeSentiment` keeps its confidence within
`[0.3, 0.95]`, and classifies positive/negative/neutral exactly by comparing
the numbers of matched positive and negative keywords. -/
theorem C10_analyzeSentiment_bounds_and_polarity (text : String) :
    (mkRat 3 10 ≤ (analyzeSentiment text).confidence ∧
      (analyzeSentiment text).confidence ≤ mkRat 19 20) ∧
    ((analyzeSentiment text).emotion = .positive ↔
      negativeMatchCount text < positiveMatchCount text) ∧
    ((analyzeSentiment text).emotion = .negative ↔
      positiveMatchCount text < negativeMatchCount text) ∧
    ((analyzeSentiment text).emotion = .neutral ↔
      positiveMatchCount text = negativeMatchCount text) := by
  have hp : positiveMatchCount text =
      (positiveKeywords.filter (fun k => jsIncludes (jsToLower text) k)).length := rfl
  have hn : negativeMatchCount text =
      (negativeKeywords.filter (fun k => jsIncludes (jsToLower text) k)).length := rfl
  set p := positiveMatchCount text with hp'
  set n := negativeMatchCount text with hn'
  have h310 : (mkRat 3 10 : ℚ) = 3 / 10 := by rw [Rat.mkRat_eq_div]; norm_num
  have h1920 : (mkRat 19 20 : ℚ) = 19 / 20 := by rw [Rat.mkRat_eq_div]; norm_num
  simp only [analyzeSentiment]
  rw [← hp, ← hn]
  split_ifs with h1 h2
  · refine ⟨⟨?_, ?_⟩, ?_, ?_, ?_⟩
    · exact le_jsMin (mkRat_le_mkRat (by norm_num) (by omega)) (by decide)
    · exact jsMin_le_right _ _
    · simp [h1]
    · simp
      omega
    · simp
      omega
  · refine ⟨⟨?_, ?_⟩, ?_, ?_, ?_⟩
    · exact le_jsMin (mkRat_le_mkRat (by norm_num) (by omega)) (by decide)
    · exact jsMin_le_right _ _
    · simp
      omega
    · simp [h2]
    · simp
      omega
  · refine ⟨⟨?_, ?_⟩, ?_, ?_, ?_⟩
    · exact le_jsMax_left _ _
    · exact jsMax_le (by decide) (mkRat_le_mkRat (by norm_num) (by omega))
    · simp
      omega
    · simp
      omega
    · simp
      omega

theorem intercalate_sublist_of_forall₂ {α : Type} (sep : List α)
    {ws₁ ws₂ : List (List α)} (hf : List.Forall₂ (fun a b => List.Sublist a b) ws₁ ws₂) :
    List.Sublist (sep.intercalate ws₁) (sep.intercalate ws₂):= by
  induction hf with
  | nil => simp [List.intercalate]
  | @cons a b l₁ l₂ hab htail ih =>
    cases htail with
    | nil => simpa [List.intercalate] using hab
    | @cons x y t₁ t₂ hxy ht =>
      simp only [List.intercalate, List.intersperse_cons₂, List.flatten_cons] at ih ⊢
      exact hab.append ((List.Sublist.refl sep).append ih)

theorem forall₂_sublist_refl {α : Type} :
    ∀ l : List (List α), List.Forall₂ (fun a b => List.Sublist a b) l l
  | [] => .nil
  | a :: t => .cons (List.Sublist.refl a) (forall₂_sublist_refl t)

theorem forall₂_sublist_set_prepend {α : Type} :
    ∀ (ws : List (List α)) (i : ℕ) (pre : List α),
      List.Forall₂ (fun a b => List.Sublist a b) ws (ws.set i (pre ++ ws.getD i []))
  | [], _, _ => List.Forall₂.nil
  | w :: rest, 0, pre =>
    List.Forall₂.cons (List.sublist_append_right pre w)
      (forall₂_sublist_refl rest)
  | w :: rest, i + 1, pre =>
    List.Forall₂.cons (List.Sublist.refl w)
      (forall₂_sublist_set_prepend rest i pre)

theorem data_sublist_prepend (p t : String) : List.Sublist t.data (p ++ t).data := by
  rw [String.data_append]
  exact List.sublist_append_right _ _

theorem data_sublist_append (t s : String) : List.Sublist t.data (t ++ s).data := by
  rw [String.data_append]
  exact List.sublist_append_left _ _

theorem addIntensifiers_sublist (text : String) (traits : PersonalityTraits)
    (personality : PersonalityConfig) (rng : List ℚ) :
    List.Sublist (text.data) (((addIntensifiers text traits personality rng).1).data):= by
  unfold addIntensifiers
  split_ifs with h1
  · exact List.Sublist.refl _
  · dsimp only
    split_ifs with h2
    · have hsrc : List.intercalate [' '] (text.data.splitOn ' ') = text.data :=
        List.intercalate_splitOn text.data ' '
      have h3 := intercalate_sublist_of_forall₂ [' ']
        (forall₂_sublist_set_prepend (text.data.splitOn ' ')
          ((text.data.splitOn ' ').length / 3)
          ((randPick traits.intensifiers (popRand rng).1).data ++ [' ']))
      rw [hsrc] at h3
      simpa [List.append_assoc, List.singleton_append] using h3
    · exact List.Sublist.refl _

theorem addEmojiLoop_sublist (emojis : List String) :
    ∀ (count : ℕ) (chars : List Char) (rng : List ℚ),
      List.Sublist (chars) ((addEmojiLoop emojis chars count rng).1)
  | 0, _, _ => List.Sublist.refl _
  | n + 1, chars, rng => by
    unfold addEmojiLoop
    refine List.Sublist.trans ?_ (addEmojiLoop_sublist emojis n _ _)
    conv_lhs => rw [← List.take_append_drop
      (randFloorMul (popRand (popRand rng).2).1 (chars.length + 1)) chars]
    exact (List.sublist_append_left _ _).append (List.Sublist.refl _)

theorem addRandomEmojis_sublist (text : String) (traits : PersonalityTraits)
    (personality : PersonalityConfig) (rng : List ℚ) :
    List.Sublist (text.data) (((addRandomEmojis text traits personality rng).1).data):= by
  unfold addRandomEmojis
  split_ifs
  · exact List.Sublist.refl _
  · exact addEmojiLoop_sublist traits.emojis _ text.data rng

theorem enhSignatureStage_sublist (config : EnhancedPersonalityConfig)
    (personality : PersonalityConfig) (s : String × List ℚ) :
    List.Sublist (s.1.data) (((enhSignatureStage config personality s).1).data):= by
  unfold enhSignatureStage
  split_ifs with h
  · dsimp only
    split_ifs with h2
    · exact data_sublist_prepend _ _
    · exact List.Sublist.refl _
  · exact List.Sublist.refl _

theorem enhToneStage_sublist (config : EnhancedPersonalityConfig)
    (personality : PersonalityConfig) (s : String × List ℚ) :
    List.Sublist (s.1.data) (((enhToneStage config personality s).1).data):= by
  unfold enhToneStage
  split_ifs with h
  · dsimp only
    split_ifs with h2
    · exact data_sublist_prepend _ _
    · exact List.Sublist.refl _
  · exact List.Sublist.refl _

theorem enhEmojiStage_sublist (config : EnhancedPersonalityConfig)
    (personality : PersonalityConfig) (s : String × List ℚ) :
    List.Sublist (s.1.data) (((enhEmojiStage config personality s).1).data):= by
  unfold enhEmojiStage
  split_ifs with h
  · dsimp only
    split_ifs with h2
    · exact (data_sublist_append _ _).trans (data_sublist_append _ _)
    · exact List.Sublist.refl _
  · exact List.Sublist.refl _

theorem applyEnhancedPersonality_sublist (text : String)
    (config : EnhancedPersonalityConfig) (personality : PersonalityConfig)
    (rng : List ℚ) :
    List.Sublist (text.data) (((applyEnhancedPersonality text config personality rng).1).data):= by
  unfold applyEnhancedPersonality
  exact ((enhSignatureStage_sublist config personality (text, rng)).trans
    (enhToneStage_sublist config personality _)).trans
    (enhEmojiStage_sublist config personality _)

theorem applyPrefixStage_sublist (traits : PersonalityTraits)
    (emotion : EmotionAnalysis) (personality : PersonalityConfig)
    (s : String × List ℚ) :
    List.Sublist (s.1.data) (((applyPrefixStage traits emotion personality s).1).data):= by
  unfold applyPrefixStage
  split_ifs with h
  · dsimp only
    split_ifs with h2
    · exact data_sublist_prepend _ _
    · exact List.Sublist.refl _
  · exact List.Sublist.refl _

theorem applyIntensifierStage_sublist (traits : PersonalityTraits)
    (personality : PersonalityConfig) (s : String × List ℚ) :
    List.Sublist (s.1.data) (((applyIntensifierStage traits personality s).1).data):= by
  unfold applyIntensifierStage
  split_ifs
  · exact addIntensifiers_sublist _ _ _ _
  · exact List.Sublist.refl _

theorem applySuffixStage_sublist (traits : PersonalityTraits)
    (personality : PersonalityConfig) (s : String × List ℚ) :
    List.Sublist (s.1.data) (((applySuffixStage traits personality s).1).data):= by
  unfold applySuffixStage
  split_ifs with h
  · dsimp only
    split_ifs with h2
    · exact data_sublist_append _ _
    · exact List.Sublist.refl _
  · exact List.Sublist.refl _

theorem applyEmojiStage_sublist (traits : PersonalityTraits)
    (personality : PersonalityConfig) (s : String × List ℚ) :
    List.Sublist (s.1.data) (((applyEmojiStage traits personality s).1).data):= by
  unfold applyEmojiStage
  split_ifs
  · exact addRandomEmojis_sublist _ _ _ _
  · exact List.Sublist.refl _

/-- C3 (amended): the rule-based rewriter only decorates: for every input
(empty or not), every emotion analysis, personality config, character name
and random stream, the input text is a subsequence of
`PersonalityManager.applyPersonality`'s output (all of its characters in
order, though not necessarily contiguously), and the output is at least as
long as the input. -/
theorem C3_applyPersonality_preserves_payload (profiles : List CharacterProfile)
    (text : String) (emotion : EmotionAnalysis) (personality : PersonalityConfig)
    (characterName : Option String) (rng : List ℚ) :
    List.Sublist text.data
      ((applyPersonality profiles text emotion personality characterName rng).1).data ∧
    text.length ≤ ((applyPersonality profiles text emotion personality characterName rng).1).length := by
  have hsub : List.Sublist text.data
      ((applyPersonality profiles text emotion personality characterName rng).1).data := by
    unfold applyPersonality
    split_ifs
    · exact List.Sublist.refl _
    · exact (((applyEnhancedPersonality_sublist text _ personality rng).trans
        (applyPrefixStage_sublist _ emotion personality _)).trans
        ((applyIntensifierStage_sublist _ personality _).trans
          (applySuffixStage_sublist _ personality _))).trans
        (applyEmojiStage_sublist _ personality _)
  exact ⟨hsub, hsub.length_le⟩

/-- C3 counterexample: with four words, intensity 2 and a random stream that
skips the tone word but fires the intensifier, the output no longer contains
the input as a contiguous substring (the intensifier is grafted mid-text). -/
theorem C3_counterexample :
    (applyPersonality [] "a b c d" (analyzeSentiment "a b c d")
      (getPersonalityConfig .enthusiastic 2) none [0, mkRat 1 2, 0]).1 =
      "a absolutely b c d! 🚀" ∧
    ¬ ("a b c d".data <:+: "a absolutely b c d! 🚀".data) := by
  constructor
  · decide
  · decide

/-- C4 counterexample: `ConfigManager.createCharacterConfig` breaks both
boolean conjuncts of the claim.  At intensity 0 (normalized 0) it still sets
`useEmojis` (because `intensity || defaultIntensity` treats 0 as absent), and
at intensity 4 it grants `allowStrongLanguage` to the non-mocking
`enthusiastic` persona. -/
theorem C4_counterexample :
    (createCharacterConfig defaultCosplayConfig (some "enthusiastic") (some 0)).intensity = 0 ∧
    (createCharacterConfig defaultCosplayConfig (some "enthusiastic") (some 0)).useEmojis = true ∧
    (createCharacterConfig defaultCosplayConfig (some "enthusiastic") (some 4)).type =
      .enthusiastic ∧
    (createCharacterConfig defaultCosplayConfig (some "enthusiastic") (some 4)).allowStrongLanguage
      = true := by
  refine ⟨by decide, by decide, by decide, by decide⟩

theorem getPersonalityConfig_intensity (t : PersonalityType) (i : Int) :
    (getPersonalityConfig t i).intensity = jsMaxInt 0 (jsMinInt 5 i) := rfl

/-- C4 (amended): the claimed normalization holds for the personality-manager
producers.  `getPersonalityConfig` clamps into `[0,5]` (−5 ↦ 0, 10 ↦ 5), sets
`useEmojis` iff the normalized intensity exceeds 1 and `allowStrongLanguage`
iff it is ≥ 4 and the type is the mocking built-in (`sarcastic`);
`characterToPersonalityConfig` does the same with the mocking attitude class
`superior/critical/authoritarian`.  `createCharacterConfig` only clamps the
intensity (into `[0, maxIntensity]`); its two booleans are computed from the
raw `intensity || defaultIntensity` with no persona condition (see the
counterexample). -/
theorem C4_intensity_normalization (t : PersonalityType) (i : Int)
    (profiles : List CharacterProfile) (name : String) (c : PersonalityConfig)
    (ch : CharacterProfile) (hch : profileGet profiles name = some ch)
    (hc : characterToPersonalityConfig profiles name i = some c) :
    (0 ≤ (getPersonalityConfig t i).intensity ∧ (getPersonalityConfig t i).intensity ≤ 5) ∧
    (getPersonalityConfig t (-5)).intensity = 0 ∧
    (getPersonalityConfig t 10).intensity = 5 ∧
    ((getPersonalityConfig t i).useEmojis = true ↔ 1 < (getPersonalityConfig t i).intensity) ∧
    ((getPersonalityConfig t i).allowStrongLanguage = true ↔
      4 ≤ (getPersonalityConfig t i).intensity ∧ t = .sarcastic) ∧
    (0 ≤ c.intensity ∧ c.intensity ≤ 5) ∧
    (c.useEmojis = true ↔ 1 < c.intensity) ∧
    (c.allowStrongLanguage = true ↔
      4 ≤ c.intensity ∧ mockingAttitudes.contains ch.personality.attitude = true) ∧
    (0 ≤ (createCharacterConfig defaultCosplayConfig (some name) (some i)).intensity ∧
      (createCharacterConfig defaultCosplayConfig (some name) (some i)).intensity ≤ 5) ∧
    (createCharacterConfig defaultCosplayConfig (some name) (some (-5))).intensity = 0 ∧
    (createCharacterConfig defaultCosplayConfig (some name) (some 10)).intensity = 5 := by
  have hclamp : ∀ j : Int, 0 ≤ jsMaxInt 0 (jsMinInt 5 j) ∧ jsMaxInt 0 (jsMinInt 5 j) ≤ 5 := by
    intro j
    unfold jsMaxInt jsMinInt
    split_ifs <;> omega
  have hclampiff : ∀ j : Int, (1 < j ↔ 1 < jsMaxInt 0 (jsMinInt 5 j)) ∧
      (4 ≤ j ↔ 4 ≤ jsMaxInt 0 (jsMinInt 5 j)) := by
    intro j
    unfold jsMaxInt jsMinInt
    split_ifs <;> omega
  have hcval : characterToPersonalityConfig profiles name i = some c := hc
  unfold characterToPersonalityConfig at hcval
  rw [hch] at hcval
  simp only [Option.some.injEq] at hcval
  subst hcval
  refine ⟨hclamp i, rfl, rfl, ?_, ?_, hclamp i, ?_, ?_, ?_, rfl, rfl⟩
  · simp only [getPersonalityConfig, decide_eq_true_eq]
    exact (hclampiff i).1
  · simp only [getPersonalityConfig, Bool.and_eq_true, decide_eq_true_eq]
    constructor
    · rintro ⟨h4, ht⟩
      exact ⟨(hclampiff i).2.mp h4, ht⟩
    · rintro ⟨h4, ht⟩
      exact ⟨(hclampiff i).2.mpr h4, ht⟩
  · simp only [decide_eq_true_eq]
    exact (hclampiff i).1
  · simp only [Bool.and_eq_true, decide_eq_true_eq]
    constructor
    · rintro ⟨h4, ht⟩
      exact ⟨(hclampiff i).2.mp h4, ht⟩
    · rintro ⟨h4, ht⟩
      exact ⟨(hclampiff i).2.mpr h4, ht⟩
  · unfold createCharacterConfig
    dsimp only
    exact hclamp i

/-- C5 counterexample: for a dynamically registered custom persona, the
pipeline's character-specific decoration branch fires even on empty input
(at intensity 2 the tone-word stage prepends `"hmm，"`), so
resultText = `""` does not hold "for any persona". -/
theorem C5_counterexample :
    (cosplayText {} 0 { text := "", character := some "foo", intensity := some 2 }
        defaultCosplayConfig safetyOff false (.error ()) (.error ()) (.error ()) (.error ())
        [0, 0]).map (fun x => x.1.emotionizedText) = .ok "hmm，" ∧
    "hmm，" ≠ "" := by
  refine ⟨by rfl, by decide⟩

/-- C5 (amended): the rewriter is the identity on empty and whitespace-only
text for every personality, intensity and random stream; and for empty input
the pipeline returns resultText = `""` with neutral sentiment for the
built-in personas (or none), starting from a fresh instance with no
registered custom profiles.  (For a dynamically generated custom persona the
character branch may decorate even empty input — see the counterexample.) -/
theorem C5_empty_passthrough :
    (∀ (profiles : List CharacterProfile) (text : String) (emotion : EmotionAnalysis)
        (personality : PersonalityConfig) (characterName : Option String) (rng : List ℚ),
      jsIsBlank text = true →
      applyPersonality profiles text emotion personality characterName rng = (text, rng)) ∧
    (∀ (character : Option String) (intensity : Option Int) (context : Option String)
        (cfg : CosplayConfig) (o1 o2 o3 o4 : Except Unit Json) (rng : List ℚ),
      (character = none ∨ character = some "enthusiastic" ∨ character = some "sarcastic" ∨
        character = some "professional") →
      (cosplayText {} 0
          { text := "", character := character, intensity := intensity, context := context }
          cfg safetyOff false o1 o2 o3 o4 rng).map
        (fun x => (x.1.emotionizedText, x.1.emotion.emotion)) = .ok ("", .neutral)) := by
  constructor
  · intro profiles text emotion personality characterName rng h
    unfold applyPersonality
    simp [h]
  · rintro character intensity context cfg o1 o2 o3 o4 rng (rfl | rfl | rfl | rfl) <;> rfl

theorem C5_empty_passthrough_witness :
    applyPersonality [] "   " (analyzeSentiment "   ") (getPersonalityConfig .enthusiastic 5)
      none [] = ("   ", []) ∧
    (cosplayText {} 0
        { text := "", character := some "sarcastic", intensity := some 4, context := none }
        defaultCosplayConfig safetyOff false (.error ()) (.error ())
        (.error ()) (.error ()) []).map
      (fun x => (x.1.emotionizedText, x.1.emotion.emotion)) = .ok ("", .neutral) :=
  ⟨C5_empty_passthrough.1 [] "   " (analyzeSentiment "   ")
      (getPersonalityConfig .enthusiastic 5) none [] (by decide),
   C5_empty_passthrough.2 (some "sarcastic") (some 4) none defaultCosplayConfig
      (.error ()) (.error ()) (.error ()) (.error ()) [] (Or.inr (Or.inr (Or.inl rfl)))⟩

/-- C1 counterexample: the error thrown for a flagged text carries the
verdict's reason but not its category: with category `"leader-related"` the
message is just `"Content safety check failed: r"`. -/
theorem C1_counterexample :
    cosplayText {} 0 { text := "t" } defaultCosplayConfig
      { enabled := true, confidenceThreshold := mkRat 1 2, strictMode := true } true
      (.ok (.obj [("content", .arr [.obj [("type", .str "text"),
        ("text", .str "\x7b\"isViolation\": true, \"reason\": \"r\", \"category\": \"leader-related\"\x7d")]])]))
      (.error ()) (.error ()) (.error ()) [] =
      .error "Content safety check failed: r" ∧
    ¬ ("leader-related".data <:+: "Content safety check failed: r".data) := by
  refine ⟨by rfl, by decide⟩

/-- C1 (amended): whenever the cached safety check yields a verdict with
`isViolation = true`, `cosplayText` throws (never returns a result); the
thrown error is the distinguishable message
`"Content safety check failed: " ++ (reason or the default phrase)`, so it
carries the verdict's reason whenever one is present and non-empty — but not
its category. -/
theorem C1_violation_rejected (st : CosplayState) (now : Int) (request : CosplayRequest)
    (cfg : CosplayConfig) (safetyConfig : ContentSafetyConfig) (server : Bool)
    (o1 o2 o3 o4 : Except Unit Json) (rng : List ℚ) (v : ContentCheckResult)
    (st' : CosplayState) (ext : Bool)
    (hcheck : checkContentWithCache st now request.text safetyConfig server o1 =
      (.ok v, st', ext))
    (hv : v.isViolation = true) :
    cosplayText st now request cfg safetyConfig server o1 o2 o3 o4 rng =
      .error ("Content safety check failed: " ++ jsOrStr v.reason "Prohibited content detected") ∧
    (∀ result, cosplayText st now request cfg safetyConfig server o1 o2 o3 o4 rng ≠
      .ok result) ∧
    (∀ r, v.reason = some r → r ≠ "" →
      r.data <:+: ("Content safety check failed: " ++
        jsOrStr v.reason "Prohibited content detected").data) := by
  have hmain : cosplayText st now request cfg safetyConfig server o1 o2 o3 o4 rng =
      .error ("Content safety check failed: " ++
        jsOrStr v.reason "Prohibited content detected") := by
    unfold cosplayText
    rw [hcheck]
    dsimp only
    rw [hv]
    rfl
  refine ⟨hmain, ?_, ?_⟩
  · intro result h
    rw [hmain] at h
    exact Except.noConfusion h
  · intro r hr hne
    rw [hr]
    have hred : jsOrStr (some r) "Prohibited content detected" = r := by
      simp [jsOrStr, hne]
    rw [hred]
    refine ⟨"Content safety check failed: ".data, [], ?_⟩
    rw [String.data_append]
    simp

theorem C1_violation_rejected_witness :
    cosplayText c1State 0 { text := "t" } defaultCosplayConfig
      { enabled := true, confidenceThreshold := mkRat 1 2, strictMode := true } true
      (.error ()) (.error ()) (.error ()) (.error ()) [] =
      .error ("Content safety check failed: " ++
        jsOrStr c1Verdict.reason "Prohibited content detected") ∧
    (∀ result, cosplayText c1State 0 { text := "t" } defaultCosplayConfig
      { enabled := true, confidenceThreshold := mkRat 1 2, strictMode := true } true
      (.error ()) (.error ()) (.error ()) (.error ()) [] ≠ .ok result) ∧
    (∀ r, c1Verdict.reason = some r → r ≠ "" →
      r.data <:+: ("Content safety check failed: " ++
        jsOrStr c1Verdict.reason "Prohibited content detected").data) :=
  C1_violation_rejected c1State 0 { text := "t" } defaultCosplayConfig
    { enabled := true, confidenceThreshold := mkRat 1 2, strictMode := true } true
    (.error ()) (.error ()) (.error ()) (.error ()) [] c1Verdict c1State false
    (by rfl) (by rfl)

/-- C2 counterexample: with the check enabled and a server set, a resolved
response carrying no extractable text (here `\x7bcontent: \x7b\x7d\x7d`) is
JSON-stringified, re-parsed, and silently turned into the safe verdict
`isViolation = false` with confidence 0 — not an explicit failure. -/
theorem C2_counterexample :
    checkWithLLM true (.ok (.obj [("content", .obj [])])) =
      .ok { isViolation := false, confidence := 0, reason := none, category := none } := by
  rfl

/-- C2 (amended): `checkWithLLM` surfaces the explicit distinguishable
failure `"Content safety check failed"` when no server is set, when the
raced classifier call rejects (network error or timeout), and when the
resolved response is not an object or array; it never silently succeeds on
those paths.  (A response that is an object or array but matches no known
shape is JSON-stringified and re-parsed, which can yield `isViolation =
false` — see the counterexample.) -/
theorem C2_classifier_failure_is_explicit :
    (∀ outcome : Except Unit Json,
      checkWithLLM false outcome = .error "Content safety check failed") ∧
    (∀ e : Unit, checkWithLLM true (.error e) = .error "Content safety check failed") ∧
    (∀ j : Json, jsObjectTruthy j = false →
      checkWithLLM true (.ok j) = .error "Content safety check failed") := by
  refine ⟨fun _ => rfl, fun _ => rfl, ?_⟩
  intro j hj
  simp [checkWithLLM, hj]

theorem C2_classifier_failure_is_explicit_witness :
    checkWithLLM true (.ok (.str "i am not an object")) =
      .error "Content safety check failed" :=
  C2_classifier_failure_is_explicit.2.2 (.str "i am not an object") rfl

theorem C4_intensity_normalization_witness :
    (0 ≤ (getPersonalityConfig .sarcastic 4).intensity ∧
      (getPersonalityConfig .sarcastic 4).intensity ≤ 5) ∧
    (getPersonalityConfig .sarcastic (-5)).intensity = 0 ∧
    (getPersonalityConfig .sarcastic 10).intensity = 5 ∧
    ((getPersonalityConfig .sarcastic 4).useEmojis = true ↔
      1 < (getPersonalityConfig .sarcastic 4).intensity) ∧
    ((getPersonalityConfig .sarcastic 4).allowStrongLanguage = true ↔
      4 ≤ (getPersonalityConfig .sarcastic 4).intensity ∧
        PersonalityType.sarcastic = .sarcastic) ∧
    (0 ≤ c4Config.intensity ∧ c4Config.intensity ≤ 5) ∧
    (c4Config.useEmojis = true ↔ 1 < c4Config.intensity) ∧
    (c4Config.allowStrongLanguage = true ↔
      4 ≤ c4Config.intensity ∧
        mockingAttitudes.contains c4Profile.personality.attitude = true) ∧
    (0 ≤ (createCharacterConfig defaultCosplayConfig (some "tycoon") (some 4)).intensity ∧
      (createCharacterConfig defaultCosplayConfig (some "tycoon") (some 4)).intensity ≤ 5) ∧
    (createCharacterConfig defaultCosplayConfig (some "tycoon") (some (-5))).intensity = 0 ∧
    (createCharacterConfig defaultCosplayConfig (some "tycoon") (some 10)).intensity = 5 :=
  C4_intensity_normalization .sarcastic 4 [c4Profile] "tycoon" c4Config c4Profile
    (by decide) (by decide)

theorem checkContentWithCache_hit (st : CosplayState) (now : Int) (text : String)
    (cfg : ContentSafetyConfig) (server : Bool) (o : Except Unit Json)
    (v : ContentCheckResult) (hhit : safetyCacheLookup st now text = some v) :
    checkContentWithCache st now text cfg server o = (.ok v, st, false) := by
  unfold checkContentWithCache
  dsimp only
  rw [hhit]

theorem checkContentWithCache_miss (st : CosplayState) (now : Int) (text : String)
    (cfg : ContentSafetyConfig) (server : Bool) (o : Except Unit Json)
    (v : ContentCheckResult) (st1 : CosplayState) (ext1 : Bool)
    (hmiss : safetyCacheLookup st now text = none)
    (hrun : checkContentWithCache st now text cfg server o = (.ok v, st1, ext1)) :
    st1.safetyCache = cleanupCache (assocSet st.safetyCache text v now) now ∧
      ext1 = checkContentMakesCall cfg server := by
  unfold checkContentWithCache at hrun
  dsimp only at hrun
  rw [hmiss] at hrun
  rcases h : checkContent cfg server o with e | result <;> rw [h] at hrun <;>
    simp only [Prod.mk.injEq] at hrun
  · exact absurd hrun.1 (by simp)
  · obtain ⟨h1, h2, h3⟩ := hrun
    have hres : result = v := by
      cases h1
      rfl
    subst hres
    rw [← h2]
    exact ⟨rfl, h3.symm⟩

theorem safetyCacheLookup_after_store (st1 : CosplayState)
    (cache : List (String × ContentCheckResult × Int)) (text : String)
    (v : ContentCheckResult) (t1 t2 : Int)
    (hc : st1.safetyCache = cleanupCache (assocSet cache text v t1) t1)
    (h1 : t2 - t1 < cacheTTL) :
    safetyCacheLookup st1 t2 text = some v := by
  have hv1 : isCacheValid t1 t1 = true := decide_eq_true (by unfold cacheTTL; omega)
  have hv2 : isCacheValid t2 t1 = true := decide_eq_true h1
  unfold safetyCacheLookup
  rw [hc]
  unfold cleanupCache assocSet
  rw [List.filter_cons]
  simp only [hv1, if_true]
  rw [List.find?_cons_of_pos _ (by simp)]
  simp [hv2]

theorem safetyCacheLookup_after_expiry (st1 : CosplayState)
    (cache : List (String × ContentCheckResult × Int)) (text : String)
    (v : ContentCheckResult) (t1 t2 : Int)
    (hc : st1.safetyCache = cleanupCache (assocSet cache text v t1) t1)
    (h1 : cacheTTL ≤ t2 - t1) :
    safetyCacheLookup st1 t2 text = none := by
  have hv1 : isCacheValid t1 t1 = true := decide_eq_true (by unfold cacheTTL; omega)
  have hv2 : isCacheValid t2 t1 = false := decide_eq_false (by omega)
  unfold safetyCacheLookup
  rw [hc]
  unfold cleanupCache assocSet
  rw [List.filter_cons]
  simp only [hv1, if_true]
  rw [List.find?_cons_of_pos _ (by simp)]
  simp [hv2]

/-- C6: (1) a fresh verdict cached by a missing first call is returned by a
second call within the TTL with no external classifier call; (2) two calls
within the TTL make at most one external call; (3) once the TTL has elapsed
(with the check enabled and a server set) the next call does go back to the
external classifier; (4)/(5) neither the safety cache nor the character
cache ever serves an entry whose age reaches its TTL. -/
theorem C6_cache_ttl :
    (∀ (st : CosplayState) (t1 t2 : Int) (text : String) (cfg : ContentSafetyConfig)
        (server : Bool) (o1 o2 : Except Unit Json) (v : ContentCheckResult)
        (st1 : CosplayState) (ext1 : Bool),
      safetyCacheLookup st t1 text = none →
      checkContentWithCache st t1 text cfg server o1 = (.ok v, st1, ext1) →
      t2 - t1 < cacheTTL →
      checkContentWithCache st1 t2 text cfg server o2 = (.ok v, st1, false)) ∧
    (∀ (st : CosplayState) (t1 t2 : Int) (text : String) (cfg : ContentSafetyConfig)
        (server : Bool) (o1 o2 : Except Unit Json) (v : ContentCheckResult)
        (st1 : CosplayState),
      checkContentWithCache st t1 text cfg server o1 = (.ok v, st1, true) →
      t2 - t1 < cacheTTL →
      (checkContentWithCache st1 t2 text cfg server o2).2.2 = false) ∧
    (∀ (st : CosplayState) (t1 t2 : Int) (text : String) (cfg : ContentSafetyConfig)
        (server : Bool) (o1 o2 : Except Unit Json) (v : ContentCheckResult)
        (st1 : CosplayState) (ext1 : Bool),
      safetyCacheLookup st t1 text = none →
      checkContentWithCache st t1 text cfg server o1 = (.ok v, st1, ext1) →
      cacheTTL ≤ t2 - t1 → cfg.enabled = true → server = true →
      (checkContentWithCache st1 t2 text cfg server o2).2.2 = true) ∧
    (∀ (st : CosplayState) (now : Int) (key : String) (v : ContentCheckResult),
      safetyCacheLookup st now key = some v →
      ∃ ts, (key, v, ts) ∈ st.safetyCache ∧ now - ts < cacheTTL) ∧
    (∀ (st : CosplayState) (now : Int) (ch : String) (c : CharacterProfile),
      characterCacheLookup st now ch = some c →
      ∃ ts, (ch, c, ts) ∈ st.characterCache ∧ now - ts < characterCacheTTL) := by
  have hfresh : ∀ (st : CosplayState) (t1 t2 : Int) (text : String)
      (cfg : ContentSafetyConfig) (server : Bool) (o1 o2 : Except Unit Json)
      (v : ContentCheckResult) (st1 : CosplayState) (ext1 : Bool),
      safetyCacheLookup st t1 text = none →
      checkContentWithCache st t1 text cfg server o1 = (.ok v, st1, ext1) →
      t2 - t1 < cacheTTL →
      checkContentWithCache st1 t2 text cfg server o2 = (.ok v, st1, false) := by
    intro st t1 t2 text cfg server o1 o2 v st1 ext1 hmiss hrun httl
    have hstore := (checkContentWithCache_miss st t1 text cfg server o1 v st1 ext1
      hmiss hrun).1
    exact checkContentWithCache_hit st1 t2 text cfg server o2 v
      (safetyCacheLookup_after_store st1 st.safetyCache text v t1 t2 hstore httl)
  refine ⟨hfresh, ?_, ?_, ?_, ?_⟩
  · intro st t1 t2 text cfg server o1 o2 v st1 hrun httl
    rcases hcase : safetyCacheLookup st t1 text with _ | v'
    · rw [hfresh st t1 t2 text cfg server o1 o2 v st1 true hcase hrun httl]
    · rw [checkContentWithCache_hit st t1 text cfg server o1 v' hcase] at hrun
      have : (false : Bool) = true := congrArg (fun p => p.2.2) hrun
      exact absurd this (by simp)
  · intro st t1 t2 text cfg server o1 o2 v st1 ext1 hmiss hrun httl hen hsv
    have hstore := (checkContentWithCache_miss st t1 text cfg server o1 v st1 ext1
      hmiss hrun).1
    have hlook := safetyCacheLookup_after_expiry st1 st.safetyCache text v t1 t2
      hstore httl
    unfold checkContentWithCache
    dsimp only
    rw [hlook]
    rcases h : checkContent cfg server o2 with e | result <;>
      simp [checkContentMakesCall, hen, hsv]
  · intro st now key v h
    unfold safetyCacheLookup at h
    rcases hf : st.safetyCache.find? (fun e => e.1 == key) with _ | e <;> rw [hf] at h
    · exact absurd h (by simp)
    · obtain ⟨k, v', ts⟩ := e
      have hmem := List.mem_of_find?_eq_some hf
      have hkey : k = key := by
        have := List.find?_some hf
        simpa using this
      dsimp only at h
      split_ifs at h with hvalid
      obtain rfl : v' = v := by simpa using h
      subst hkey
      have hv := hvalid
      unfold isCacheValid at hv
      exact ⟨ts, hmem, of_decide_eq_true hv⟩
  · intro st now ch c h
    unfold characterCacheLookup at h
    rcases hf : st.characterCache.find? (fun e => e.1 == ch) with _ | e <;> rw [hf] at h
    · exact absurd h (by simp)
    · obtain ⟨k, c', ts⟩ := e
      have hmem := List.mem_of_find?_eq_some hf
      have hkey : k = ch := by
        have := List.find?_some hf
        simpa using this
      dsimp only at h
      split_ifs at h with hvalid
      obtain rfl : c' = c := by simpa using h
      subst hkey
      exact ⟨ts, hmem, hvalid⟩

theorem C6_cache_ttl_witness :
    checkContentWithCache c6State 1 "t" safetyOff false (.error ()) =
      (.ok c6SafeVerdict, c6State, false) ∧
    (checkContentWithCache c6State2 1 "t" safetyOn true (.ok c6Response)).2.2 = false ∧
    (checkContentWithCache c6State2 cacheTTL "t" safetyOn true (.ok c6Response)).2.2 = true ∧
    (∃ ts, ("t", c6SafeVerdict, ts) ∈ c6State.safetyCache ∧ (1 : Int) - ts < cacheTTL) ∧
    (∃ ts, ("foo", c6Profile, ts) ∈ c6CharState.characterCache ∧
      (1 : Int) - ts < characterCacheTTL) :=
  ⟨C6_cache_ttl.1 {} 0 1 "t" safetyOff false (.error ()) (.error ()) c6SafeVerdict
      c6State false (by rfl) (by rfl) (by decide),
   C6_cache_ttl.2.1 {} 0 1 "t" safetyOn true (.ok c6Response) (.ok c6Response)
      c6Verdict2 c6State2 (by rfl) (by decide),
   C6_cache_ttl.2.2.1 {} 0 cacheTTL "t" safetyOn true (.ok c6Response) (.ok c6Response)
      c6Verdict2 c6State2 true (by rfl) (by rfl) (by decide) (by rfl) (by rfl),
   C6_cache_ttl.2.2.2.1 c6State 1 "t" c6SafeVerdict (by rfl),
   C6_cache_ttl.2.2.2.2 c6CharState 1 "foo" c6Profile (by rfl)⟩

theorem dsGenerateFallbackDialect_success (r : DialectQueryRequest) :
    (dsGenerateFallbackDialect r).success = true := by
  unfold dsGenerateFallbackDialect
  split_ifs <;> rfl

/-- C7: with a server configured, if exactly one of the two concurrently
settled branches fails, `generateCharacter` still returns `success = true`
composed of the surviving branch's output plus the failed branch's local
fallback: a rejected trait call is replaced by
`getFallbackPersonalityConfig` while the resolved dialect is kept, and a
rejected dialect call is replaced by the static dialect fallback while the
parsed trait config is kept. -/
theorem C7_partial_failure (req : CharacterGenerationRequest) (e1 e2 : Unit)
    (dj tj : Json) (s : String) (dcfg : DialectConfig)
    (hext : dsExtractText dj = some s)
    (hparse : dsParseLLMResponse s = .ok dcfg) :
    generateCharacter true req (.error e1) (.ok dj) =
      { success := true,
        character := some
          { name := req.characterName,
            description := jsOrStr req.description ("Character: " ++ req.characterName),
            personality := { getFallbackPersonalityConfig req with dialect := some dcfg },
            examples := req.examples,
            category := some (inferCategory req.characterName) } } ∧
    generateCharacter true req (.ok tj) (.error e2) =
      { success := true,
        character := some
          { name := req.characterName,
            description := jsOrStr req.description ("Character: " ++ req.characterName),
            personality := { dcgParseLLMResponse (dcgExtractText tj) with
              dialect := (dsGenerateFallbackDialect (dialectRequestOf req)).dialect },
            examples := req.examples,
            category := some (inferCategory req.characterName) } } := by
  have hq1 : queryDialect true (dialectRequestOf req) (.ok dj) =
      { success := true, dialect := some dcfg } := by
    unfold queryDialect
    dsimp only
    rw [hext]
    dsimp only
    rw [hparse]
    rfl
  have hq2 : queryDialect true (dialectRequestOf req) (.error e2) =
      dsGenerateFallbackDialect (dialectRequestOf req) := by
    unfold queryDialect
    rfl
  constructor
  · unfold generateCharacter
    dsimp only
    rw [hq1]
    rfl
  · unfold generateCharacter
    dsimp only
    rw [hq2]
    rw [if_pos (dsGenerateFallbackDialect_success (dialectRequestOf req))]
    rfl

theorem C7_partial_failure_witness :
    generateCharacter true c7Req (.error ()) (.ok c7DialectJson) =
      { success := true,
        character := some
          { name := c7Req.characterName,
            description := jsOrStr c7Req.description ("Character: " ++ c7Req.characterName),
            personality := { getFallbackPersonalityConfig c7Req with dialect := some c7Dialect },
            examples := c7Req.examples,
            category := some (inferCategory c7Req.characterName) } } ∧
    generateCharacter true c7Req (.ok (.str "junk")) (.error ()) =
      { success := true,
        character := some
          { name := c7Req.characterName,
            description := jsOrStr c7Req.description ("Character: " ++ c7Req.characterName),
            personality := { dcgParseLLMResponse (dcgExtractText (.str "junk")) with
              dialect := (dsGenerateFallbackDialect (dialectRequestOf c7Req)).dialect },
            examples := c7Req.examples,
            category := some (inferCategory c7Req.characterName) } } :=
  C7_partial_failure c7Req () () c7DialectJson (.str "junk")
    "\x7b\"name\":\"n\",\"region\":\"r\"\x7d" c7Dialect (by rfl) (by rfl)

/-- C8: with no generation capability, `generateCharacter` never fails — it
always returns `success = true` with a synthesized record; and for a persona
name outside every keyword table (an unknown name) with no description, the
record's dialect is the standard-Mandarin default (non-empty name `标准官话`
and region `全国`) and its category is the generic `custom` bucket. -/
theorem C8_fallback_synthesis (req : CharacterGenerationRequest)
    (o1 o2 : Except Unit Json)
    (hn1 : req.characterName ≠ "洪秀全") (hn2 : req.characterName ≠ "孙中山")
    (ha1 : (["dora", "crayon", "naruto", "onepiece", "哆啦", "蜡笔", "火影", "海贼",
      "奥特曼"].any (fun kw => jsIncludes (jsToLower req.characterName) kw)) = false)
    (ha2 : (["teacher", "professor", "expert", "老师", "教授",
      "专家"].any (fun kw => jsIncludes (jsToLower req.characterName) kw)) = false)
    (ha3 : (["star", "actor", "singer", "明星", "演员",
      "歌手"].any (fun kw => jsIncludes (jsToLower req.characterName) kw)) = false)
    (ha4 : (["boss", "ceo", "leader", "老板", "领导",
      "总裁"].any (fun kw => jsIncludes (jsToLower req.characterName) kw)) = false) :
    (∀ (r : CharacterGenerationRequest) (p1 p2 : Except Unit Json),
      (generateCharacter false r p1 p2).success = true ∧
      (generateCharacter false r p1 p2).character.isSome = true) ∧
    ((generateCharacter false req o1 o2).character.map
      (fun ch => ch.personality.dialect.map (fun d => (d.name, d.region)))) =
      some (some ("标准官话", "全国")) ∧
    ("标准官话" : String) ≠ "" ∧ ("全国" : String) ≠ "" ∧
    ((generateCharacter false req o1 o2).character.map (·.category)) =
      some (some "custom") := by
  refine ⟨fun r p1 p2 => ⟨rfl, rfl⟩, ?_, by decide, by decide, ?_⟩
  · simp [generateCharacter, generateFallbackCharacter, dcgGenerateFallbackDialect, hn1, hn2]
  · simp [generateCharacter, generateFallbackCharacter, inferCategory, ha1, ha2, ha3, ha4]

theorem C8_fallback_synthesis_witness :
    (∀ (r : CharacterGenerationRequest) (p1 p2 : Except Unit Json),
      (generateCharacter false r p1 p2).success = true ∧
      (generateCharacter false r p1 p2).character.isSome = true) ∧
    ((generateCharacter false { characterName := "张三" } (.error ()) (.error ())).character.map
      (fun ch => ch.personality.dialect.map (fun d => (d.name, d.region)))) =
      some (some ("标准官话", "全国")) ∧
    ("标准官话" : String) ≠ "" ∧ ("全国" : String) ≠ "" ∧
    ((generateCharacter false { characterName := "张三" } (.error ()) (.error ())).character.map
      (·.category)) = some (some "custom") :=
  C8_fallback_synthesis { characterName := "张三" } (.error ()) (.error ())
    (by decide) (by decide) (by decide) (by decide) (by decide) (by decide)

/-- C9: `queryDialect` always succeeds — every failure of the external call
(no server, rejection/timeout, unextractable response, parse failure) routes
to the static fallback — and a structured response whose `name` or `region`
is missing or falsy is rejected in its entirety, the whole result being the
fallback rather than the partial response. -/
theorem C9_queryDialect_always_succeeds :
    (∀ (server : Bool) (req : DialectQueryRequest) (outcome : Except Unit Json),
      (queryDialect server req outcome).success = true) ∧
    (∀ (req : DialectQueryRequest) (j : Json) (s : String) (parsed : Json),
      dsExtractText j = some s →
      jsonParse s = some parsed →
      (jsTruthy (jsonField parsed "name") = false ∨
        jsTruthy (jsonField parsed "region") = false) →
      queryDialect true req (.ok j) = dsGenerateFallbackDialect req) := by
  constructor
  · intro server req outcome
    unfold queryDialect
    split_ifs with hs
    · exact dsGenerateFallbackDialect_success req
    · rcases outcome with e | response
      · exact dsGenerateFallbackDialect_success req
      · dsimp only
        rcases hext : dsExtractText response with _ | s
        · exact dsGenerateFallbackDialect_success req
        · dsimp only
          rcases hp : dsParseLLMResponse s with e | dcfg
          · exact dsGenerateFallbackDialect_success req
          · rfl
  · intro req j s parsed hext hparse hmiss
    have hperr : dsParseLLMResponse s = .error "无法解析方言配置" := by
      unfold dsParseLLMResponse
      rw [hparse]
      dsimp only
      rw [if_pos hmiss]
    unfold queryDialect
    dsimp only
    rw [hext]
    dsimp only
    rw [hperr]
    rfl

theorem C9_queryDialect_always_succeeds_witness :
    (queryDialect false { characterName := "hero" } (.error ())).success = true ∧
    queryDialect true { characterName := "hero" }
        (.ok (.obj [("text", .str "\x7b\"region\":\"r\"\x7d")])) =
      dsGenerateFallbackDialect { characterName := "hero" } :=
  ⟨C9_queryDialect_always_succeeds.1 false { characterName := "hero" } (.error ()),
   C9_queryDialect_always_succeeds.2 { characterName := "hero" }
      (.obj [("text", .str "\x7b\"region\":\"r\"\x7d")]) "\x7b\"region\":\"r\"\x7d"
      (.obj [("region", .str "r")]) (by rfl) (by rfl) (Or.inl (by rfl))⟩

/-! ### Concrete evaluations of the embedding -/

example : (analyzeSentiment "This is great and awesome!").emotion = .positive := by decide

example : (analyzeSentiment "This is terrible and awful!").emotion = .negative := by decide

example : (analyzeSentiment "").confidence = mkRat 1 2 := by decide

example : (analyzeSentiment "这个代码很棒，很好！").emotion = .positive := by decide

example : (analyzeSentiment "great awesome fantastic perfect").confidence = mkRat 9 10 := by decide

example : (createCharacterConfig defaultCosplayConfig (some "sarcastic") (some 10)).intensity = 5 := by decide

example : (createCharacterConfig defaultCosplayConfig (some "sarcastic") (some (-5))).intensity = 0 := by decide

example : (createCharacterConfig defaultCosplayConfig (some "enthusiastic") (some 0)).useEmojis = true := by decide

example : randFloorMul (mkRat 1 2) 5 = 2 := by decide

example : randFloorMul 0 5 = 0 := by decide

example : randFloorMul (mkRat 99 100) 5 = 4 := by decide

example :
    (applyPersonality [] "" (analyzeSentiment "") (getPersonalityConfig .enthusiastic 3)
      none []).1 = "" := by decide

example :
    (applyPersonality [] "   " (analyzeSentiment "   ") (getPersonalityConfig .enthusiastic 5)
      none [0, 0, 0]).1 = "   " := by decide

example :
    (applyPersonality [] "a b c d" (analyzeSentiment "a b c d")
      (getPersonalityConfig .enthusiastic 2) none [0, mkRat 1 2, 0]).1 =
      "a absolutely b c d! 🚀" := by decide

example : jsonParse "\x7b\"a\": [1, true, \"x\"]\x7d" =
    some (.obj [("a", .arr [.num 1, .bool true, .str "x"])]) := by rfl

example : jsonParse "\x7b\"content\":\x7b\x7d\x7d" =
    some (.obj [("content", .obj [])]) := by rfl

example : jsonParse "0.9" = some (.num (mkRat 9 10)) := by rfl

example : jsonParse "\x7b" = none := by rfl

example : jsonStringify (.obj [("content", .obj [])]) = "\x7b\"content\":\x7b\x7d\x7d" := by rfl

example :
    checkWithLLM true (.ok (.obj [("content", .obj [])])) =
      .ok { isViolation := false, confidence := 0 } := by rfl

example : checkWithLLM true (.error ()) = .error "Content safety check failed" := by rfl

example : checkWithLLM false (.ok (.obj [])) = .error "Content safety check failed" := by rfl

example :
    (generateFallbackCharacter { characterName := "张三" }).success = true := by rfl

example :
    ((generateFallbackCharacter { characterName := "张三" }).character.map
      (·.category)) = some (some "custom") := by rfl

example :
    (cosplayText {} 0 { text := "", character := some "foo", intensity := some 2 }
        defaultCosplayConfig safetyOff false (.error ()) (.error ()) (.error ()) (.error ())
        [0, 0]).map (fun r => r.1.emotionizedText) = .ok "hmm，" := by rfl

example :
    (cosplayText {} 0 { text := "" } defaultCosplayConfig safetyOff false
        (.error ()) (.error ()) (.error ()) (.error ()) []).map
      (fun r => r.1.emotionizedText) = .ok "" := by rfl

example :
    checkWithLLM true
      (.ok (.obj [("content", .arr [.obj [("type", .str "text"),
        ("text", .str "\x7b\"isViolation\": true, \"confidence\": 0.9, \"reason\": \"r\", \"category\": \"c\"\x7d")]])])) =
      .ok { isViolation := true, confidence := mkRat 9 10,
            reason := some "r", category := some "c" } := by rfl

end Cosplay
